import Mathlib

/-!
# Verification of the surgio node codec / filter / serializer core

Shallow embedding of `src/unnamed/part_000` (the utils module: subscription
decoders, node filtering, client serializers, proxy-group builder) and
`src/lib/template.ts` (rule-line translation filters).

JavaScript strings are modelled by Lean `String`; the handful of string
primitives the source relies on (`split`, `replace` with a plain pattern,
`trim`, `toUpperCase`, `startsWith`, base64 via `Buffer`, percent
encoding) are implemented below over `String.data` so that every
definition is executable and kernel-reducible.
-/

namespace Surgio

/-- JS whitespace test used by `String.prototype.trim` (ASCII subset). -/
def isWsChar (c : Char) : Bool :=
  c = ' ' || c = '\t' || c = '\n' || c = '\r'

/-- `String.prototype.trim`: strip whitespace from both ends. -/
def jsTrim (s : String) : String :=
  ⟨((s.data.dropWhile isWsChar).reverse.dropWhile isWsChar).reverse⟩

/-- `String.prototype.toUpperCase` (ASCII letters; rule lines are ASCII). -/
def jsUpper (s : String) : String :=
  ⟨s.data.map Char.toUpper⟩

/-- `String.prototype.startsWith`. -/
def jsStartsWith (s pat : String) : Bool :=
  pat.data.isPrefixOf s.data

/-- Split a character list at every occurrence of `sep`
(JS `String.prototype.split` with a one-character separator). -/
def splitAllChar (sep : Char) : List Char → List (List Char)
  | [] => [[]]
  | c :: rest =>
    let r := splitAllChar sep rest
    if c = sep then [] :: r
    else
      match r with
      | h :: t => (c :: h) :: t
      | [] => [[c]]

/-- JS `str.split(sep)` for a one-character separator. -/
def jsSplit (s : String) (sep : Char) : List String :=
  (splitAllChar sep s.data).map (fun l => ⟨l⟩)

/-- Find the first occurrence of `pat` in a character list; return the text
before it and the text after it. -/
def findSplit (pat : List Char) : List Char → Option (List Char × List Char)
  | [] => if pat = [] then some ([], []) else none
  | c :: rest =>
    if pat.isPrefixOf (c :: rest) then some ([], (c :: rest).drop pat.length)
    else
      match findSplit pat rest with
      | some (pre, post) => some (c :: pre, post)
      | none => none

/-- JS `str.replace(pat, rep)` with a plain-string pattern: replaces the
first occurrence only. -/
def replaceFirstStr (s pat rep : String) : String :=
  match findSplit pat.data s.data with
  | some (pre, post) => ⟨pre ++ rep.data ++ post⟩
  | none => s

/-- JS `str.replace(/pat.*$/, '')` for a literal `pat` on a single line:
drop everything from the first occurrence of `pat` on. -/
def dropFromFirst (pat s : String) : String :=
  match findSplit pat.data s.data with
  | some (pre, _) => ⟨pre⟩
  | none => s

/-- Split at the first occurrence of a character: `(before, after)`. -/
def splitFirstChar (sep : Char) (s : String) : Option (String × String) :=
  match findSplit [sep] s.data with
  | some (pre, post) => some (⟨pre⟩, ⟨post⟩)
  | none => none

/-- Split at the last occurrence of a character: `(before, after)`. -/
def splitLastChar (sep : Char) (s : String) : Option (String × String) :=
  match findSplit [sep] s.data.reverse with
  | some (pre, post) => some (⟨post.reverse⟩, ⟨pre.reverse⟩)
  | none => none

/-- Digits-only string to `Nat` (used to coerce numeric-string ports). -/
def digitsToNat (s : String) : Nat :=
  s.data.foldl (fun n c => n * 10 + (c.toNat - 48)) 0

/-- Render a JS boolean as it appears in a template literal. -/
def boolStr (b : Bool) : String := if b then "true" else "false"

/-- JS truthiness of an optional boolean field (`undefined` and `false`
are falsy). -/
def truthyOptBool (o : Option Bool) : Bool := o = some true

/-- JS truthiness of an optional string field (`undefined` and `''` are
falsy). -/
def truthyOptStr (o : Option String) : Bool :=
  match o with
  | some s => s ≠ ""
  | none => false

/-- JS `a || d` for a plain string `a`: `d` when `a` is empty. -/
def jsOrS (a d : String) : String := if a = "" then d else a

/-- JS `a || d` where `a` is an optional string (`undefined` or `''`
falls back to `d`). -/
def jsOrOpt (a : Option String) (d : String) : String :=
  match a with
  | some s => if s = "" then d else s
  | none => d

/-- JS template interpolation of a possibly-`undefined` string value. -/
def showOptStr (o : Option String) : String :=
  match o with
  | some s => s
  | none => "undefined"

/-! ## Codec primitives (base64, URL-safe base64, percent encoding)

These model `Buffer.from(str, 'utf8').toString('base64')` and friends, the
`urlsafe-base64` package, and `encodeURIComponent`/`decodeURIComponent`.
-/

/-- UTF-8 encode one code point. -/
def utf8Bytes (c : Char) : List Nat :=
  let n := c.toNat
  if n < 0x80 then [n]
  else if n < 0x800 then [0xC0 + n / 64, 0x80 + n % 64]
  else if n < 0x10000 then
    [0xE0 + n / 4096, 0x80 + (n / 64) % 64, 0x80 + n % 64]
  else
    [0xF0 + n / 262144, 0x80 + (n / 4096) % 64, 0x80 + (n / 64) % 64,
     0x80 + n % 64]

/-- UTF-8 encode a string (`Buffer.from(str, 'utf8')`). -/
def strToBytes (s : String) : List Nat := s.data.flatMap utf8Bytes

/-- Decode a byte list back to a string. The decoders verified here only
ever consume ASCII payloads, on which this agrees with UTF-8 decoding. -/
def bytesToStr (l : List Nat) : String := ⟨l.map Char.ofNat⟩

/-- The standard base64 alphabet. -/
def b64Alphabet : List Char :=
  "ABCDEFGHIJKLMNOPQRSTUVWXYZabcdefghijklmnopqrstuvwxyz0123456789+/".data

/-- Base64 digit for a 6-bit value. -/
def b64CharOf (n : Nat) : Char := b64Alphabet.getD n 'A'

/-- 6-bit value of a base64 digit. -/
def b64IndexOf (c : Char) : Nat :=
  match b64Alphabet.indexOf? c with
  | some i => i
  | none => 0

/-- Base64-encode a byte list, with `=` padding. -/
def b64EncodeBytes : List Nat → List Char
  | [] => []
  | [a] => [b64CharOf (a / 4), b64CharOf (a % 4 * 16), '=', '=']
  | [a, b] =>
    [b64CharOf (a / 4), b64CharOf (a % 4 * 16 + b / 16),
     b64CharOf (b % 16 * 4), '=']
  | a :: b :: c :: rest =>
    b64CharOf (a / 4) :: b64CharOf (a % 4 * 16 + b / 16) ::
    b64CharOf (b % 16 * 4 + c / 64) :: b64CharOf (c % 64) ::
    b64EncodeBytes rest

/-- Base64-decode a character list; tolerates missing padding the way
`Buffer.from(str, 'base64')` does. -/
def b64DecodeChars : List Char → List Nat
  | c1 :: c2 :: c3 :: c4 :: rest =>
    let a := b64IndexOf c1
    let b := b64IndexOf c2
    (a * 4 + b / 16) ::
      (if c3 = '=' then []
       else
         let c := b64IndexOf c3
         (b % 16 * 16 + c / 4) ::
           (if c4 = '=' then [] else [c % 4 * 64 + b64IndexOf c4])) ++
      b64DecodeChars rest
  | [c1, c2, c3] =>
    let a := b64IndexOf c1
    let b := b64IndexOf c2
    let c := b64IndexOf c3
    [a * 4 + b / 16, b % 16 * 16 + c / 4]
  | [c1, c2] =>
    let a := b64IndexOf c1
    let b := b64IndexOf c2
    [a * 4 + b / 16]
  | _ => []

/-- `toBase64` from the source: UTF-8 then base64. -/
def toBase64 (str : String) : String := ⟨b64EncodeBytes (strToBytes str)⟩

/-- `fromBase64` from the source. -/
def fromBase64 (str : String) : String := bytesToStr (b64DecodeChars str.data)

/-- `URLSafeBase64.encode`: base64 with `+` → `-`, `/` → `_`, padding
stripped. -/
def toUrlSafeBase64 (str : String) : String :=
  ⟨((b64EncodeBytes (strToBytes str)).map (fun c =>
      if c = '+' then '-' else if c = '/' then '_' else c)).filter
    (fun c => c ≠ '=')⟩

/-- `URLSafeBase64.validate`: the string uses only the URL-safe alphabet. -/
def urlSafeBase64Valid (s : String) : Bool :=
  s ≠ "" && s.data.all (fun c =>
    c.isAlpha || c.isDigit || c = '-' || c = '_')

/-- `URLSafeBase64.decode`: undo the character substitution, then base64
decode. -/
def urlSafeBase64Decode (s : String) : String :=
  bytesToStr (b64DecodeChars (s.data.map (fun c =>
    if c = '-' then '+' else if c = '_' then '/' else c)))

/-- `fromUrlSafeBase64` from the source: URL-safe decode when the input
validates, falling back to standard base64. -/
def fromUrlSafeBase64 (str : String) : String :=
  if urlSafeBase64Valid str then urlSafeBase64Decode str
  else fromBase64 str

/-- Characters `encodeURIComponent` leaves unescaped. -/
def uriUnescaped (c : Char) : Bool :=
  c.isAlpha || c.isDigit || c = '-' || c = '_' || c = '.' || c = '!' ||
  c = '~' || c = '*' || c = Char.ofNat 39 || c = '(' || c = ')'

/-- Uppercase hex digit of a 4-bit value. -/
def hexDigit (n : Nat) : Char :=
  "0123456789ABCDEF".data.getD n '0'

/-- `encodeURIComponent`. -/
def percentEncode (s : String) : String :=
  ⟨s.data.flatMap (fun c =>
    if uriUnescaped c then [c]
    else (utf8Bytes c).flatMap (fun b => ['%', hexDigit (b / 16), hexDigit (b % 16)]))⟩

/-- Value of a hex digit. -/
def hexVal (c : Char) : Nat :=
  if c.isDigit then c.toNat - 48
  else if 'A' ≤ c && c ≤ 'F' then c.toNat - 55
  else if 'a' ≤ c && c ≤ 'f' then c.toNat - 87
  else 0

/-- `decodeURIComponent`, at the byte level. -/
def pctDecodeBytes : List Char → List Nat
  | '%' :: h1 :: h2 :: rest => (hexVal h1 * 16 + hexVal h2) :: pctDecodeBytes rest
  | c :: rest => utf8Bytes c ++ pctDecodeBytes rest
  | [] => []

/-- `decodeURIComponent`. -/
def percentDecode (s : String) : String := bytesToStr (pctDecodeBytes s.data)

/-! ## Node model

Tagged union of the `NodeConfig` variants from `../types`, with the fields
the utils module reads. Hyphenated JS keys are camel-cased
(`'udp-relay'` → `udpRelay`, `'obfs-host'` → `obfsHost`,
`'obfs-uri'` → `obfsUri`). Optional fields are `Option`s: `none` models
an absent (`undefined`) key. -/

/-- `surgeConfig` per-node options. -/
structure SurgeConfigOpts where
  shadowsocksFormat : Option String := none
  v2ray : Option String := none
  deriving Repr, DecidableEq

structure ShadowsocksNodeConfig where
  nodeName : String
  hostname : String
  port : Nat
  method : String
  password : String
  enable : Option Bool := none
  udpRelay : Option Bool := none
  obfs : Option String := none
  obfsHost : Option String := none
  obfsUri : Option String := none
  tfo : Option Bool := none
  mptcp : Option Bool := none
  skipCertVerify : Option Bool := none
  surgeConfig : Option SurgeConfigOpts := none
  deriving Repr, DecidableEq

structure ShadowsocksrNodeConfig where
  nodeName : String
  hostname : String
  port : Nat
  method : String
  password : String
  protocol : String
  protoparam : String
  obfs : String
  obfsparam : String
  enable : Option Bool := none
  udpRelay : Option Bool := none
  binPath : Option String := none
  localPort : Nat := 0
  hostnameIp : Option (List String) := none
  tfo : Option Bool := none
  deriving Repr, DecidableEq

structure VmessNodeConfig where
  nodeName : String
  hostname : String
  port : Nat
  method : String
  uuid : String
  alterId : String
  network : String
  host : String
  path : String
  tls : Bool
  enable : Option Bool := none
  udp : Option Bool := none
  udpRelay : Option Bool := none
  tls13 : Option Bool := none
  skipCertVerify : Option Bool := none
  tfo : Option Bool := none
  mptcp : Option Bool := none
  binPath : Option String := none
  localPort : Nat := 0
  hostnameIp : Option (List String) := none
  surgeConfig : Option SurgeConfigOpts := none
  deriving Repr, DecidableEq

structure HttpsNodeConfig where
  nodeName : String
  hostname : String
  port : Nat
  username : String
  password : String
  enable : Option Bool := none
  tls13 : Option Bool := none
  skipCertVerify : Option Bool := none
  tfo : Option Bool := none
  mptcp : Option Bool := none
  deriving Repr, DecidableEq

structure SnellNodeConfig where
  nodeName : String
  hostname : String
  port : Nat
  psk : String
  obfs : String
  enable : Option Bool := none
  tfo : Option Bool := none
  mptcp : Option Bool := none
  deriving Repr, DecidableEq

/-- `PossibleNodeConfigType`: the closed union over `type`. -/
inductive NodeConfig where
  | ss (c : ShadowsocksNodeConfig)
  | ssr (c : ShadowsocksrNodeConfig)
  | vmess (c : VmessNodeConfig)
  | https (c : HttpsNodeConfig)
  | snell (c : SnellNodeConfig)
  deriving Repr, DecidableEq

def NodeConfig.nodeName : NodeConfig → String
  | .ss c => c.nodeName
  | .ssr c => c.nodeName
  | .vmess c => c.nodeName
  | .https c => c.nodeName
  | .snell c => c.nodeName

def NodeConfig.enable : NodeConfig → Option Bool
  | .ss c => c.enable
  | .ssr c => c.enable
  | .vmess c => c.enable
  | .https c => c.enable
  | .snell c => c.enable

/-- `SimpleNodeConfig`: the common shape `applyFilter` needs (used as-is
by the proxy-group builder). -/
structure SimpleNodeConfig where
  nodeName : String
  enable : Option Bool := none
  deriving Repr, DecidableEq

/-- The fields `applyFilter` and the group builder read from any node-like
value (`T extends SimpleNodeConfig`). -/
class NodeMeta (α : Type) where
  nodeName : α → String
  enable : α → Option Bool

instance : NodeMeta NodeConfig := ⟨NodeConfig.nodeName, NodeConfig.enable⟩
instance : NodeMeta SimpleNodeConfig := ⟨SimpleNodeConfig.nodeName, SimpleNodeConfig.enable⟩

/-- `item.enable !== false` — the per-node enabled test in `applyFilter`
(and inlined in the serializers that skip `applyFilter`). -/
def jsEnabled {α : Type} [NodeMeta α] (item : α) : Bool :=
  NodeMeta.enable item ≠ some false

/-! ## Filter engine -/

/-- The polymorphic filter argument (`NodeNameFilterType |
SortedNodeNameFilterType`, or the absent / invalid values a JS call site
can pass): `undef` = argument omitted or `undefined`, `null` = a JS
`null`, `pred` = a predicate function, `composite` = an object exposing a
`filter` operation over the node sequence, `invalid desc` = any other
truthy value (rendered as `desc` in error messages). -/
inductive FilterArg (α : Type) where
  | undef
  | null
  | pred (p : α → Bool)
  | composite (g : List α → List α)
  | invalid (desc : String)

/-- JS truthiness of the filter argument. -/
def FilterArg.truthy : FilterArg α → Bool
  | .undef => false
  | .null => false
  | _ => true

/-- JS template interpolation of the filter value (for error messages). -/
def FilterArg.describe : FilterArg α → String
  | .undef => "undefined"
  | .null => "null"
  | .pred _ => "[Function]"
  | .composite _ => "[object Object]"
  | .invalid desc => desc

/-- Modelled from the spec: `validateFilter` is imported from `./filter`,
which is not under `src/`. Per §3 of the spec a filter is either a
predicate over a node or a composite object exposing a `filter` operation
over a node sequence; anything else is invalid. -/
def validateFilter : FilterArg α → Bool
  | .pred _ => true
  | .composite _ => true
  | _ => false

/-- `applyFilter` (src/unnamed/part_000:1284-1307). Throwing is modelled
with `Except.error`. -/
def applyFilter {α : Type} [NodeMeta α]
    (nodeList : List α) (filter : FilterArg α) :
    Except String (List α) :=
  if filter.truthy && !(validateFilter filter) then
    .error ("使用了无效的过滤器 " ++ filter.describe)
  else
    let nodes : List α := nodeList.filter (fun item =>
      let result := jsEnabled item
      match filter with
      | .pred p => p item && result
      | _ => result)
    match filter with
    | .composite g => .ok (g nodes)
    | _ => .ok nodes

/-- The pure selection `applyFilter` performs when it does not throw. -/
def filterNodes {α : Type} [NodeMeta α]
    (nodeList : List α) (filter : FilterArg α) : List α :=
  match filter with
  | .pred p => nodeList.filter (fun item => p item && jsEnabled item)
  | .composite g => g (nodeList.filter jsEnabled)
  | _ => nodeList.filter jsEnabled

/-- A filter value that is not the invalid case. -/
def FilterArg.wellFormed : FilterArg α → Prop
  | .invalid _ => False
  | _ => True

/-- A composite filter is benign when its `filter` operation only selects
among the nodes it is given (it may reorder, drop or duplicate, but not
invent nodes). Predicates and absent filters are always benign. -/
def FilterArg.benign : FilterArg α → Prop
  | .composite g => ∀ xs : List α, ∀ y ∈ g xs, y ∈ xs
  | .invalid _ => False
  | _ => True

/-! ## Serializer building blocks -/

/-- One element of a serializer's comma-joined attribute list: either a
positional value or a `key=value` pair. -/
inductive Attr where
  | pos (s : String)
  | kv (k v : String)
  deriving Repr, DecidableEq

def Attr.render : Attr → String
  | .pos s => s
  | .kv k v => k ++ "=" ++ v

/-- Does this attribute carry the given key? -/
def Attr.isKey (a : Attr) (key : String) : Bool :=
  match a with
  | .pos _ => false
  | .kv k _ => k = key

def renderAttrs (sep : String) (attrs : List Attr) : String :=
  String.intercalate sep (attrs.map Attr.render)

/-- `...(typeof x === 'boolean' ? [`k=${x}`] : [])` — the emit-only-when-
present pattern for optional boolean fields. -/
def optBoolAttr (k : String) (o : Option Bool) : List Attr :=
  match o with
  | some b => [Attr.kv k (boolStr b)]
  | none => []

/-- `pickAndFormatStringList` (src/unnamed/part_000:1142-1150): emit
`key=value` for each listed key the object actually has. `prop` is the
object's own-property lookup. -/
def pickAndFormatStringList (prop : String → Option String)
    (keyList : List String) : List Attr :=
  keyList.filterMap (fun k => (prop k).map (fun v => Attr.kv k v))

/-- `['x', 'y'].includes(field)` on a possibly-`undefined` string field. -/
def optStrMem (o : Option String) (l : List String) : Bool :=
  match o with
  | some s => l.contains s
  | none => false

/-- `JSON.stringify` escaping of one character (the characters relevant
to config strings). -/
def jsonEscapeChar (c : Char) : List Char :=
  if c = '"' then ['\\', '"']
  else if c = '\\' then ['\\', '\\']
  else if c = '\n' then ['\\', 'n']
  else if c = '\r' then ['\\', 'r']
  else if c = '\t' then ['\\', 't']
  else [c]

/-- `JSON.stringify` of a string value. -/
def jsonQuote (s : String) : String :=
  ⟨'"' :: (s.data.flatMap jsonEscapeChar ++ ['"'])⟩

/-- Own-property lookup for `pickAndFormatStringList` on a Shadowsocks
node. -/
def ShadowsocksNodeConfig.jsProp (c : ShadowsocksNodeConfig) :
    String → Option String
  | "password" => some c.password
  | "udp-relay" => c.udpRelay.map boolStr
  | "obfs" => c.obfs
  | "obfs-host" => c.obfsHost
  | "tfo" => c.tfo.map boolStr
  | "method" => some c.method
  | _ => none

def ShadowsocksrNodeConfig.jsProp (c : ShadowsocksrNodeConfig) :
    String → Option String
  | "method" => some c.method
  | "password" => some c.password
  | _ => none

def HttpsNodeConfig.jsProp (c : HttpsNodeConfig) : String → Option String
  | "username" => some c.username
  | "password" => some c.password
  | _ => none

def SnellNodeConfig.jsProp (c : SnellNodeConfig) : String → Option String
  | "psk" => some c.psk
  | "obfs" => some c.obfs
  | _ => none

/-- Modelled from the spec: `OBFS_UA` is imported from `./constant`,
which is absent from src; it is an opaque user-agent constant whose value
no verified claim depends on. -/
def OBFS_UA : String :=
  "Mozilla/5.0 (iPhone; CPU iPhone OS 13_2_3 like Mac OS X) AppleWebKit/605.1.15 (KHTML, like Gecko) Version/13.0.3 Mobile/15E148 Safari/604.1"

/-! ## Surge serializer (`getSurgeNodes`, src/unnamed/part_000:300-552)

`configFolder` models the result of `ensureConfigFolder()` and `homeDir`
the result of `os.homedir()` — both environment-dependent collaborators.
The `fs.writeJSONSync` side effect does not influence the returned text
and is not modelled. -/

/-- The Surge VMess `ws-headers` value:
`[`Host:${host}`, `User-Agent:${JSON.stringify(ua)}`].join('|')`. -/
def surgeVmessHeader (host ua : String) : String :=
  "Host:" ++ host ++ "|" ++ "User-Agent:" ++ jsonQuote ua

/-- The Surge attribute list of an HTTPS node. -/
def surgeHttpsAttrs (config : HttpsNodeConfig) : List Attr :=
  [Attr.pos "https", Attr.pos config.hostname, Attr.pos (toString config.port),
   Attr.pos config.username, Attr.pos config.password]
  ++ optBoolAttr "tls13" config.tls13
  ++ optBoolAttr "skip-cert-verify" config.skipCertVerify
  ++ optBoolAttr "tfo" config.tfo
  ++ optBoolAttr "mptcp" config.mptcp

/-- The Surge attribute list of a natively rendered VMess node. -/
def surgeVmessNativeAttrs (config : VmessNodeConfig) : List Attr :=
  [Attr.pos "vmess", Attr.pos config.hostname, Attr.pos (toString config.port),
   Attr.kv "username" config.uuid]
  ++ (if config.network = "ws" then
        [Attr.kv "ws" "true", Attr.kv "ws-path" config.path,
         Attr.kv "ws-headers"
           (surgeVmessHeader (jsOrS config.host config.hostname) OBFS_UA)]
      else [])
  ++ (if config.tls then
        [Attr.kv "tls" "true"]
        ++ optBoolAttr "tls13" config.tls13
        ++ optBoolAttr "skip-cert-verify" config.skipCertVerify
      else [])
  ++ optBoolAttr "udp-relay" config.udpRelay
  ++ optBoolAttr "tfo" config.tfo
  ++ optBoolAttr "mptcp" config.mptcp

/-- The `external`-provider config entries shared by the Surge SSR and
external-VMess branches. -/
def surgeExternalEntries (binPath : String) (args : List String)
    (localPort : Nat) (hostnameIp : Option (List String))
    (hostname : String) : List String :=
  (["external", "exec = " ++ jsonQuote binPath]
    ++ args.map (fun arg => "args = " ++ jsonQuote arg)
    ++ ["local-port = " ++ toString localPort])
  ++ (match hostnameIp with
      | some l => l.map (fun item => "addresses = " ++ item)
      | none => [])
  ++ ["addresses = " ++ hostname]

/-- Per-node Surge emission: `.ok none` models the skip-with-warning
`return null`, `.error` models a thrown configuration error. -/
def surgeEmit (configFolder homeDir : String) :
    NodeConfig → Except String (Option String)
  | .ss config =>
    if optStrMem config.obfs ["ws", "wss"] then
      -- 不支持为 Surge 生成 v2ray-plugin 的 Shadowsocks 节点 (warn, skip)
      .ok none
    else if (config.surgeConfig.bind SurgeConfigOpts.shadowsocksFormat)
        = some "ss" then
      .ok (some (config.nodeName ++ " = " ++ renderAttrs ", "
        ([Attr.pos "ss", Attr.pos config.hostname,
          Attr.pos (toString config.port),
          Attr.kv "encrypt-method" config.method]
         ++ pickAndFormatStringList config.jsProp
              ["password", "udp-relay", "obfs", "obfs-host", "tfo"]
         ++ optBoolAttr "mptcp" config.mptcp)))
    else
      .ok (some (config.nodeName ++ " = " ++ renderAttrs ", "
        ([Attr.pos "custom", Attr.pos config.hostname,
          Attr.pos (toString config.port), Attr.pos config.method,
          Attr.pos config.password,
          Attr.pos "https://raw.githubusercontent.com/ConnersHua/SSEncrypt/master/SSEncrypt.module"]
         ++ pickAndFormatStringList config.jsProp
              ["udp-relay", "obfs", "obfs-host", "tfo"]
         ++ optBoolAttr "mptcp" config.mptcp)))
  | .https config =>
    .ok (some (config.nodeName ++ " = "
      ++ renderAttrs ", " (surgeHttpsAttrs config)))
  | .snell config =>
    .ok (some (config.nodeName ++ " = " ++ renderAttrs ", "
      ([Attr.pos "snell", Attr.pos config.hostname,
        Attr.pos (toString config.port)]
       ++ pickAndFormatStringList config.jsProp ["psk", "obfs"]
       ++ optBoolAttr "tfo" config.tfo
       ++ optBoolAttr "mptcp" config.mptcp)))
  | .ssr config =>
    if truthyOptStr config.binPath = false then
      .error "You must specify a binary file path for Shadowsocksr."
    else
      let args : List String :=
        ["-s", config.hostname, "-p", toString config.port,
         "-m", config.method, "-o", config.obfs, "-O", config.protocol,
         "-k", config.password, "-l", toString config.localPort,
         "-b", "127.0.0.1"]
        ++ (if config.protoparam ≠ "" then ["-G", config.protoparam] else [])
        ++ (if config.obfsparam ≠ "" then ["-g", config.obfsparam] else [])
      .ok (some (config.nodeName ++ " = " ++ String.intercalate ", "
        (surgeExternalEntries (config.binPath.getD "") args config.localPort
          config.hostnameIp config.hostname)))
  | .vmess config =>
    if (config.surgeConfig.bind SurgeConfigOpts.v2ray) = some "native" then
      .ok (some (config.nodeName ++ " = "
        ++ renderAttrs ", " (surgeVmessNativeAttrs config)))
    else
      if truthyOptStr config.binPath = false then
        .error "You must specify a binary file path for V2Ray."
      else
        let jsonFileName :=
          "v2ray_" ++ toString config.localPort ++ "_" ++ config.hostname
            ++ "_" ++ toString config.port ++ ".json"
        let jsonFilePath := configFolder ++ "/" ++ jsonFileName
        let args : List String :=
          ["--config", replaceFirstStr jsonFilePath homeDir "$HOME"]
        .ok (some (config.nodeName ++ " = " ++ String.intercalate ", "
          (surgeExternalEntries (config.binPath.getD "") args
            config.localPort config.hostnameIp config.hostname)))

/-- Run a per-node emission over a node list, dropping skipped nodes and
propagating the first thrown error (`.map(...).filter(item => item !==
null)` with exceptions). -/
def emitAll {β : Type} (emit : NodeConfig → Except String (Option β)) :
    List NodeConfig → Except String (List β)
  | [] => .ok []
  | n :: rest =>
    match emit n with
    | .error e => .error e
    | .ok r =>
      match emitAll emit rest with
      | .error e => .error e
      | .ok rs =>
        match r with
        | some s => .ok (s :: rs)
        | none => .ok rs

def getSurgeNodeLines (configFolder homeDir : String)
    (list : List NodeConfig) (filter : FilterArg NodeConfig) :
    Except String (List String) :=
  match applyFilter list filter with
  | .error e => .error e
  | .ok ns => emitAll (surgeEmit configFolder homeDir) ns

/-- `getSurgeNodes`: the joined Surge config text. -/
def getSurgeNodes (configFolder homeDir : String)
    (list : List NodeConfig) (filter : FilterArg NodeConfig) :
    Except String String :=
  (getSurgeNodeLines configFolder homeDir list filter).map
    (String.intercalate "\n")

/-! ## Clash serializer (`getClashNodes`, src/unnamed/part_000:554-658)

Clash emits structured objects; conditionally-spread keys are `Option`
fields (`none` = key absent). -/

/-- `plugin` / `plugin-opts` of a Clash Shadowsocks entry. -/
inductive ClashSsPlugin where
  | obfsLocal (mode : String) (host : Option String)
  | v2rayPlugin (tls : Bool) (skipCertVerify : Option Bool)
      (host : Option String) (path : String) (mux : Bool)
  deriving Repr, DecidableEq

structure ClashSS where
  cipher : String
  name : String
  password : String
  port : Nat
  server : String
  udp : Bool
  plugin : Option ClashSsPlugin := none
  deriving Repr, DecidableEq

structure ClashWsOpts where
  path : String
  headersHost : Option String := none
  deriving Repr, DecidableEq

structure ClashVmess where
  cipher : String
  name : String
  server : String
  port : Nat
  uuid : String
  alterId : String
  udp : Option Bool := none
  network : Option String := none
  tls : Bool
  skipCertVerify : Option Bool := none
  ws : Option ClashWsOpts := none
  deriving Repr, DecidableEq

structure ClashSSR where
  name : String
  server : String
  udp : Option Bool := none
  port : Nat
  password : String
  obfs : String
  obfsparam : String
  protocol : String
  protocolparam : String
  cipher : String
  deriving Repr, DecidableEq

structure ClashSnell where
  name : String
  server : String
  port : Nat
  psk : String
  obfsMode : String
  deriving Repr, DecidableEq

inductive ClashProxyNode where
  | ss (c : ClashSS)
  | vmess (c : ClashVmess)
  | ssr (c : ClashSSR)
  | snell (c : ClashSnell)
  deriving Repr, DecidableEq

/-- The Clash object for one VMess node. -/
def clashVmessOf (c : VmessNodeConfig) : ClashVmess :=
  { cipher := c.method
    name := c.nodeName
    server := c.hostname
    port := c.port
    uuid := c.uuid
    alterId := c.alterId
    udp := c.udp
    network := if c.network = "tcp" then none else some c.network
    tls := c.tls
    skipCertVerify :=
      match c.skipCertVerify with
      | some b => if c.tls then some b else none
      | none => none
    ws :=
      if c.network = "ws" then
        some { path := c.path
               headersHost := if c.host ≠ "" then some c.host else none }
      else none }

/-- Per-node Clash emission; `none` = skipped (disabled or unsupported). -/
def clashEmit (nodeConfig : NodeConfig) : Option ClashProxyNode :=
  if nodeConfig.enable = some false then none
  else
    match nodeConfig with
    | .ss c =>
      some (.ss
        { cipher := c.method
          name := c.nodeName
          password := c.password
          port := c.port
          server := c.hostname
          udp := c.udpRelay.getD false  -- nodeConfig['udp-relay'] || false
          plugin :=
            if optStrMem c.obfs ["tls", "http"] then
              some (.obfsLocal (c.obfs.getD "") c.obfsHost)
            else if optStrMem c.obfs ["ws", "wss"] then
              some (.v2rayPlugin (c.obfs = some "wss")
                (match c.skipCertVerify with
                 | some b => if c.obfs = some "wss" then some b else none
                 | none => none)
                c.obfsHost (jsOrOpt c.obfsUri "/") false)
            else none })
    | .vmess c => some (.vmess (clashVmessOf c))
    | .ssr c =>
      some (.ssr
        { name := c.nodeName
          server := c.hostname
          udp := c.udpRelay
          port := c.port
          password := c.password
          obfs := c.obfs
          obfsparam := c.obfsparam
          protocol := c.protocol
          protocolparam := c.protoparam
          cipher := c.method })
    | .snell c =>
      some (.snell
        { name := c.nodeName
          server := c.hostname
          port := c.port
          psk := c.psk
          obfsMode := c.obfs })
    | .https _ => none  -- 不支持为 Clash 生成 (warn, skip)

def getClashNodes (list : List NodeConfig) (filter : FilterArg NodeConfig) :
    Except String (List ClashProxyNode) :=
  match applyFilter list filter with
  | .error e => .error e
  | .ok ns => .ok (ns.filterMap clashEmit)

/-! ## V2RayN serializer (`getV2rayNNodes`, src/unnamed/part_000:799-833) -/

/-- `JSON.stringify` of the fixed-shape V2RayN node object (insertion
key order). -/
def vmessJsonStr (c : VmessNodeConfig) : String :=
  "\x7b" ++ String.intercalate ","
    ([("v", "2"), ("ps", c.nodeName), ("add", c.hostname),
      ("port", toString c.port), ("id", c.uuid), ("aid", c.alterId),
      ("net", c.network), ("type", "none"), ("host", c.host),
      ("path", c.path), ("tls", if c.tls then "tls" else "")].map
      (fun p => jsonQuote p.1 ++ ":" ++ jsonQuote p.2))
  ++ "\x7d"

def v2rayNEmit (nodeConfig : NodeConfig) : Option String :=
  if nodeConfig.enable = some false then none
  else
    match nodeConfig with
    | .vmess c => some ("vmess://" ++ toBase64 (vmessJsonStr c))
    | _ => none  -- 在生成 V2Ray 节点时出现了其他节点 (warn, skip)

def getV2rayNNodeLines (list : List NodeConfig) : List String :=
  list.filterMap v2rayNEmit

def getV2rayNNodes (list : List NodeConfig) : String :=
  String.intercalate "\n" (getV2rayNNodeLines list)

/-! ## Mellow serializer (`getMellowNodes`, src/unnamed/part_000:660-682) -/

/-- Modelled from the spec: `formatVmessUri` is imported from `./v2ray`,
which is absent from src. Spec §6 fixes the VMess URI wire format
`vmess://<base64 JSON>` and §4.5 the V2RayN JSON shape it carries. -/
def formatVmessUri (c : VmessNodeConfig) : String :=
  "vmess://" ++ toBase64 (vmessJsonStr c)

def mellowEmit (nodeConfig : NodeConfig) : Option String :=
  match nodeConfig with
  | .vmess c =>
    some (String.intercalate ", "
      [c.nodeName, "vmess1",
       replaceFirstStr (jsTrim (formatVmessUri c)) "vmess://" "vmess1://"])
  | _ => none  -- 不支持为 Mellow 生成 (warn, skip)

def getMellowNodeLines (list : List NodeConfig)
    (filter : FilterArg NodeConfig) : Except String (List String) :=
  match applyFilter list filter with
  | .error e => .error e
  | .ok ns => .ok (ns.filterMap mellowEmit)

def getMellowNodes (list : List NodeConfig) (filter : FilterArg NodeConfig) :
    Except String String :=
  (getMellowNodeLines list filter).map (String.intercalate "\n")

/-! ## Shadowsocks SIP002 URI serializer
(`getShadowsocksNodes`, src/unnamed/part_000:704-752) -/

def ssUriQuery (config : ShadowsocksNodeConfig) (groupName : String) :
    List (String × String) :=
  (if truthyOptStr config.obfs then
    [("plugin", percentEncode
      ("obfs-local;obfs=" ++ config.obfs.getD ""
        ++ ";obfs-host=" ++ showOptStr config.obfsHost))]
   else [])
  ++ (if groupName ≠ "" then [("group", percentEncode groupName)] else [])

/-- `queryString.stringify(query, { encode: false, sort: false })`. -/
def qsStringifyNoSort (pairs : List (String × String)) : String :=
  String.intercalate "&" (pairs.map (fun p => p.1 ++ "=" ++ p.2))

def ssUriEmit (groupName : String) (nodeConfig : NodeConfig) :
    Option String :=
  if nodeConfig.enable = some false then none
  else
    match nodeConfig with
    | .ss config =>
      some ("ss://"
        ++ toUrlSafeBase64 (config.method ++ ":" ++ config.password)
        ++ "@" ++ config.hostname ++ ":" ++ toString config.port
        ++ "/?" ++ qsStringifyNoSort (ssUriQuery config groupName)
        ++ "#" ++ percentEncode config.nodeName)
    | _ => none  -- 在生成 Shadowsocks 节点时出现了其他节点 (warn, skip)

def getShadowsocksNodeLines (list : List NodeConfig) (groupName : String) :
    List String :=
  list.filterMap (ssUriEmit groupName)

/-- `getShadowsocksNodes` (the `groupName` parameter defaults to
`'Surgio'` at JS call sites). -/
def getShadowsocksNodes (list : List NodeConfig) (groupName : String) :
    String :=
  String.intercalate "\n" (getShadowsocksNodeLines list groupName)

/-! ## ShadowsocksR URI serializer
(`getShadowsocksrNodes`, src/unnamed/part_000:754-797) -/

def ssrUriEmit (groupName : String) (nodeConfig : NodeConfig) :
    Option String :=
  if nodeConfig.enable = some false then none
  else
    match nodeConfig with
    | .ssr c =>
      let baseUri := String.intercalate ":"
        [c.hostname, toString c.port, c.protocol, c.method, c.obfs,
         toUrlSafeBase64 c.password]
      -- queryString.stringify({ encode: false }) sorts keys alphabetically
      let query := qsStringifyNoSort
        [("group", toUrlSafeBase64 groupName),
         ("obfsparam", toUrlSafeBase64 c.obfsparam),
         ("protoparam", toUrlSafeBase64 c.protoparam),
         ("remarks", toUrlSafeBase64 c.nodeName),
         ("udpport", "0"), ("uot", "0")]
      some ("ssr://" ++ toUrlSafeBase64 (baseUri ++ "/?" ++ query))
    | _ => none  -- 在生成 Shadowsocksr 节点时出现了其他节点 (warn, skip)

def getShadowsocksrNodeLines (list : List NodeConfig) (groupName : String) :
    List String :=
  list.filterMap (ssrUriEmit groupName)

def getShadowsocksrNodes (list : List NodeConfig) (groupName : String) :
    String :=
  String.intercalate "\n" (getShadowsocksrNodeLines list groupName)

/-! ## Quantumult serializer
(`getQuantumultNodes`, src/unnamed/part_000:835-907) -/

/-- The Quantumult obfuscation header:
`[`Host:${host}`, `User-Agent:${ua}`].join('[Rr][Nn]')`. -/
def quantumultVmessHeader (host ua : String) : String :=
  "Host:" ++ host ++ "[Rr][Nn]" ++ "User-Agent:" ++ ua

def quantumultEmit (groupName : String) (nodeConfig : NodeConfig) :
    Option String :=
  match nodeConfig with
  | .vmess c =>
    let config := String.intercalate ","
      (([ "vmess", c.hostname, toString c.port,
          (if c.method = "auto" then "chacha20-ietf-poly1305" else c.method),
          jsonQuote c.uuid, c.alterId,
          "group=" ++ groupName,
          "over-tls=" ++ (if c.tls = true then "true" else "false"),
          "certificate=1",
          "obfs=" ++ c.network,
          "obfs-path=" ++ jsonQuote (jsOrS c.path "/"),
          "obfs-header="
            ++ jsonQuote
              (quantumultVmessHeader (jsOrS c.host c.hostname) OBFS_UA)
        ]).filter (fun value => value ≠ ""))
    some ("vmess://" ++ toBase64 (c.nodeName ++ " = " ++ config))
  | .ss c => some (getShadowsocksNodes [.ss c] groupName)
  | .ssr c => some (getShadowsocksrNodes [.ssr c] groupName)
  | .https c =>
    some ("http://" ++ toBase64 (c.nodeName ++ " = "
      ++ String.intercalate ", "
        ["http",
         "upstream-proxy-address=" ++ c.hostname,
         "upstream-proxy-port=" ++ toString c.port,
         "upstream-proxy-auth=true",
         "upstream-proxy-username=" ++ c.username,
         "upstream-proxy-password=" ++ c.password,
         "over-tls=true",
         "certificate=1"]))
  | .snell _ => none  -- 不支持为 Quantumult 生成 (warn, skip)

/-- Note: the trailing `.filter(item => !!item)` also drops the empty
string a disabled Shadowsocks(R) node produces through the nested
serializer call. -/
def getQuantumultNodeLines (list : List NodeConfig) (groupName : String)
    (filter : FilterArg NodeConfig) : Except String (List String) :=
  match applyFilter list filter with
  | .error e => .error e
  | .ok ns => .ok ((ns.filterMap (quantumultEmit groupName)).filter
      (fun item => item ≠ ""))

def getQuantumultNodes (list : List NodeConfig) (groupName : String)
    (filter : FilterArg NodeConfig) : Except String String :=
  (getQuantumultNodeLines list groupName filter).map
    (String.intercalate "\n")

/-! ## Quantumult X serializer
(`getQuantumultXNodes`, src/unnamed/part_000:912-1031) -/

def qxVmessAttrs (c : VmessNodeConfig) : List Attr :=
  ([Attr.pos (c.hostname ++ ":" ++ toString c.port),
    -- method 为 auto 时 qx 会无法识别
    (if c.method = "auto" then Attr.kv "method" "chacha20-ietf-poly1305"
     else Attr.kv "method" c.method),
    Attr.kv "password" c.uuid,
    -- `udp-relay=${nodeConfig.udp || true}`
    Attr.kv "udp-relay"
      (boolStr (match c.udp with | some b => b || true | none => true))]
   ++ (if truthyOptBool c.tfo then
        [Attr.kv "fast-open" (boolStr (c.tfo.getD false))]
       else []))
  ++ (if c.network = "ws" then
        [(if c.tls then Attr.kv "obfs" "wss" else Attr.kv "obfs" "ws"),
         Attr.kv "obfs-uri" (jsOrS c.path "/"),
         Attr.kv "obfs-host" (jsOrS c.host c.hostname)]
      else if c.network = "tcp" then
        (if c.tls then [Attr.kv "obfs" "over-tls"] else [])
      else [])
  ++ [Attr.kv "tag" c.nodeName]

def qxSsAttrs (c : ShadowsocksNodeConfig) : List Attr :=
  [Attr.pos (c.hostname ++ ":" ++ toString c.port)]
  ++ pickAndFormatStringList c.jsProp ["method", "password"]
  ++ (if optStrMem c.obfs ["http", "tls"] then
        [Attr.kv "obfs" (c.obfs.getD ""),
         Attr.kv "obfs-host" (showOptStr c.obfsHost)]
      else [])
  ++ (if optStrMem c.obfs ["ws", "wss"] then
        [Attr.kv "obfs" (c.obfs.getD ""),
         Attr.kv "obfs-host" (jsOrOpt c.obfsHost c.hostname),
         Attr.kv "obfs-uri" (jsOrOpt c.obfsUri "/")]
      else [])
  ++ (if truthyOptBool c.udpRelay then
        [Attr.kv "udp-relay" (boolStr (c.udpRelay.getD false))]
      else [])
  ++ (if truthyOptBool c.tfo then
        [Attr.kv "fast-open" (boolStr (c.tfo.getD false))]
      else [])
  ++ [Attr.kv "tag" c.nodeName]

def qxSsrAttrs (c : ShadowsocksrNodeConfig) : List Attr :=
  [Attr.pos (c.hostname ++ ":" ++ toString c.port)]
  ++ pickAndFormatStringList c.jsProp ["method", "password"]
  ++ [Attr.kv "ssr-protocol" c.protocol,
      Attr.kv "ssr-protocol-param" c.protoparam,
      Attr.kv "obfs" c.obfs,
      Attr.kv "obfs-host" c.obfsparam]
  ++ (if truthyOptBool c.udpRelay then
        [Attr.kv "udp-relay" (boolStr (c.udpRelay.getD false))]
      else [])
  ++ (if truthyOptBool c.tfo then
        [Attr.kv "fast-open" (boolStr (c.tfo.getD false))]
      else [])
  ++ [Attr.kv "tag" c.nodeName]

def qxHttpsAttrs (c : HttpsNodeConfig) : List Attr :=
  [Attr.pos (c.hostname ++ ":" ++ toString c.port)]
  ++ pickAndFormatStringList c.jsProp ["username", "password"]
  ++ [Attr.pos "over-tls=true"]
  ++ (if truthyOptBool c.tfo then
        [Attr.kv "fast-open" (boolStr (c.tfo.getD false))]
      else [])
  ++ [Attr.kv "tag" c.nodeName]

def qxEmit (nodeConfig : NodeConfig) : Option String :=
  match nodeConfig with
  | .vmess c => some ("vmess=" ++ renderAttrs ", " (qxVmessAttrs c))
  | .ss c => some ("shadowsocks=" ++ renderAttrs ", " (qxSsAttrs c))
  | .ssr c => some ("shadowsocks=" ++ renderAttrs ", " (qxSsrAttrs c))
  | .https c => some ("http=" ++ renderAttrs ", " (qxHttpsAttrs c))
  | .snell _ => none  -- 不支持为 QuantumultX 生成 (warn, skip)

def getQuantumultXNodeLines (list : List NodeConfig)
    (filter : FilterArg NodeConfig) : Except String (List String) :=
  match applyFilter list filter with
  | .error e => .error e
  | .ok ns => .ok (ns.filterMap qxEmit)

def getQuantumultXNodes (list : List NodeConfig)
    (filter : FilterArg NodeConfig) : Except String String :=
  (getQuantumultXNodeLines list filter).map (String.intercalate "\n")

/-! ## Shadowsocks JSON serializer
(`getShadowsocksNodesJSON`, src/unnamed/part_000:1034-1069) -/

structure SSJsonNode where
  remarks : String
  server : String
  serverPort : Nat      -- server_port
  method : String
  remarksBase64 : String -- remarks_base64
  password : String
  tcpOverUdp : Bool     -- tcp_over_udp
  udpOverTcp : Bool     -- udp_over_tcp
  enable : Bool
  plugin : Option String := none
  pluginOpts : Option String := none  -- 'plugin-opts'
  deriving Repr, DecidableEq

def ssJsonEmit (nodeConfig : NodeConfig) : Option SSJsonNode :=
  if nodeConfig.enable = some false then none
  else
    match nodeConfig with
    | .ss c =>
      -- Boolean(nodeConfig.obfs && nodeConfig['obfs-host'])
      let useObfs := truthyOptStr c.obfs && truthyOptStr c.obfsHost
      some { remarks := c.nodeName
             server := c.hostname
             serverPort := c.port
             method := c.method
             remarksBase64 := toUrlSafeBase64 c.nodeName
             password := c.password
             tcpOverUdp := false
             udpOverTcp := false
             enable := true
             plugin := if useObfs then some "obfs-local" else none
             pluginOpts :=
               if useObfs then
                 some ("obfs=" ++ c.obfs.getD "" ++ ";obfs-host="
                   ++ showOptStr c.obfsHost)
               else none }
    | _ => none  -- 在生成 Shadowsocks 节点时出现了其他节点 (warn, skip)

/-- `getShadowsocksNodesJSON` builds this object list and returns
`JSON.stringify(nodes, null, 2)`; the verified claims concern which nodes
appear, so the object list is the modelled output. -/
def getShadowsocksNodesJSON (list : List NodeConfig) : List SSJsonNode :=
  list.filterMap ssJsonEmit

/-! ## Proxy-group builder
(`generateClashProxyGroup`, src/unnamed/part_000:1095-1138) -/

/-- The `options` argument. At JS call sites that omit `options` entirely
the defaults `proxyTestUrl = PROXY_TEST_URL`, `proxyTestInterval =
PROXY_TEST_INTERVAL` apply; those constants live in the absent
`./constant` module, so the options are explicit here. A key set to
`undefined` and an absent key are both `none`. -/
structure ClashProxyGroupOptions where
  filter : FilterArg SimpleNodeConfig := .undef
  existingProxies : Option (List String) := none
  proxyTestUrl : Option String := none
  proxyTestInterval : Option Nat := none

structure ClashProxyGroup where
  type : String
  name : String
  proxies : List String
  url : Option String := none
  interval : Option Nat := none
  deriving Repr, DecidableEq

def generateClashProxyGroup (ruleName ruleType : String)
    (nodeNameList : List SimpleNodeConfig)
    (options : ClashProxyGroupOptions) : Except String ClashProxyGroup :=
  match ((match options.existingProxies with
    | some existingProxies =>
      if options.filter.truthy then
        match applyFilter nodeNameList options.filter with
        | .error e => .error e
        | .ok nodes =>
          .ok (existingProxies ++ nodes.map (fun item => item.nodeName))
      else .ok existingProxies
    | none =>
      match applyFilter nodeNameList options.filter with
      | .error e => .error e
      | .ok nodes => .ok (nodes.map (fun item => item.nodeName))) :
      Except String (List String)) with
  | .error e => .error e
  | .ok proxies =>
    .ok { type := ruleType
          name := ruleName
          proxies := proxies
          url :=
            if ["url-test", "fallback", "load-balance"].contains ruleType
            then options.proxyTestUrl else none
          interval :=
            if ["url-test", "fallback", "load-balance"].contains ruleType
            then options.proxyTestInterval else none }

/-! ## V2RayN subscription decoder
(`getV2rayNSubscription`, src/unnamed/part_000:245-298)

The raw payload is base64 text whose lines hold `vmess://<base64 JSON>`;
the JSON object obtained from `JSON.parse` is modelled by `VmessJson`
(string fields `Option String`, `none` = key absent; `v` is the value of
`Number(json.v)`, `none` when the field is absent, falsy, or not a
number). -/

structure VmessJson where
  v : Option Int := none
  ps : String := ""
  add : String := ""
  port : Nat := 0
  id : String := ""
  aid : Option String := none
  net : String := ""
  tls : Option String := none
  host : Option String := none
  path : Option String := none
  deriving Repr, DecidableEq

def vmessVersionError (url : String) : String :=
  "该订阅 " ++ url ++ " 可能不是一个有效的 V2rayN 订阅。请参考 http://bit.ly/2N4lZ8X 进行排查"

/-- The console warning for an unsupported `net` value. -/
def vmessNetWarning (json : VmessJson) : String :=
  "不支持读取 network 类型为 " ++ json.net ++ " 的 Vmess 节点，节点 "
    ++ json.ps ++ " 会被省略"

/-- The node a surviving VMess JSON payload decodes to. -/
def vmessNodeOf (json : VmessJson) : VmessNodeConfig :=
  { nodeName := json.ps
    hostname := json.add
    port := json.port
    method := "auto"
    uuid := json.id
    alterId := jsOrOpt json.aid "0"  -- json.aid || '0'
    network := json.net
    tls := json.tls == some "tls"    -- json.tls === 'tls'
    host := jsOrOpt json.host ""     -- json.host || ''
    path := jsOrOpt json.path "/" }  -- json.path || '/'

/-- The body of the per-line `map`: throw on a bad version marker, skip
(with a warning) on an unsupported network, otherwise decode the node. -/
def decodeVmessLine (url : String) (json : VmessJson) :
    Except String (Option VmessNodeConfig) :=
  if json.v ≠ some 2 then  -- !json.v || Number(json.v) !== 2
    .error (vmessVersionError url)
  else if ["kcp", "http"].contains json.net then
    .ok none
  else
    .ok (some (vmessNodeOf json))

/-- `.map(...).filter(item => !!item)` over the decoded JSON payloads,
with the emitted warnings collected alongside the surviving nodes. -/
def getV2rayNSubscriptionFromJson (url : String) :
    List VmessJson → Except String (List VmessNodeConfig × List String)
  | [] => .ok ([], [])
  | j :: rest =>
    match decodeVmessLine url j with
    | .error e => .error e
    | .ok r =>
      match getV2rayNSubscriptionFromJson url rest with
      | .error e => .error e
      | .ok (ns, ws) =>
        match r with
        | some n => .ok (n :: ns, ws)
        | none => .ok (ns, vmessNetWarning j :: ws)

/-! ## SIP002 Shadowsocks subscription decoder
(`getShadowsocksSubscription`, src/unnamed/part_000:159-208) -/

/-- A decoded `key=value;key=value` attribute value: a string, or the
boolean `true` a bare key produces. -/
inductive SLVal where
  | str (s : String)
  | tru
  deriving Repr, DecidableEq

/-- `decodeStringList` (src/unnamed/part_000:1152-1159), as the
association list the result object holds. -/
def decodeStringList (stringList : List String) : List (String × SLVal) :=
  stringList.map (fun item =>
    let pair := jsSplit item '='
    (pair.headD "",
      match pair.get? 1 with
      | some v => if v = "" then SLVal.tru else SLVal.str v  -- pair[1] || true
      | none => SLVal.tru))

/-- Object key lookup: the last assignment to a duplicated key wins. -/
def slGet (m : List (String × SLVal)) (k : String) : Option SLVal :=
  (m.reverse.find? (fun p => p.1 = k)).map (fun p => p.2)

def slTruthy (o : Option SLVal) : Bool :=
  match o with
  | some (.str s) => s ≠ ""
  | some .tru => true
  | none => false

/-- Read an attribute value where a string is expected (a bare key's
boolean `true` renders as `"true"`). -/
def slStrOpt (o : Option SLVal) : Option String :=
  match o with
  | some (.str s) => some s
  | some .tru => some "true"
  | none => none

/-- The pieces of `legacyUrl.parse(item, true)` the decoder reads, for an
`ss://` URI. -/
structure SsUriParts where
  auth : String
  hostname : String
  port : String
  queryPlugin : Option String := none
  hash : String
  deriving Repr, DecidableEq

/-- Model of the collaborator `legacyUrl.parse(item, true)` on SIP002
URIs: `auth` is the userinfo before `@`, `hostname`/`port` split the
authority at its last `:`, `query.plugin` is the percent-decoded `plugin`
query parameter, `hash` keeps its leading `#`. -/
def parseSsUri (item : String) : SsUriParts :=
  let rest : String := ⟨item.data.drop 5⟩  -- past 'ss://'
  let (beforeHash, hash) :=
    match splitFirstChar '#' rest with
    | some (a, b) => (a, "#" ++ b)
    | none => (rest, "")
  let (beforeQuery, query) :=
    match splitFirstChar '?' beforeHash with
    | some (a, b) => (a, b)
    | none => (beforeHash, "")
  let authority :=
    match splitFirstChar '/' beforeQuery with
    | some (a, _) => a
    | none => beforeQuery
  let (auth, hostport) :=
    match splitFirstChar '@' authority with
    | some (a, b) => (a, b)
    | none => ("", authority)
  let (hostname, port) :=
    match splitLastChar ':' hostport with
    | some (h, p) => (h, p)
    | none => (hostport, "")
  let queryPlugin :=
    ((jsSplit query '&').filterMap (fun pair =>
      match splitFirstChar '=' pair with
      | some (k, v) => if k = "plugin" then some (percentDecode v) else none
      | none => none)).head?
  { auth := auth, hostname := hostname, port := port,
    queryPlugin := queryPlugin, hash := hash }

/-- Decode one surviving `ss://` line into a node (the body of the
decoder's `map`). The JS node keeps `port` as the string `url.parse`
returns; serializers interpolate it verbatim, which the `Nat` model
matches for the numeric ports subscriptions carry. -/
def getShadowsocksSubscriptionNode (udpRelay : Option Bool)
    (item : String) : ShadowsocksNodeConfig :=
  let scheme := parseSsUri item
  let userInfo := jsSplit (fromUrlSafeBase64 scheme.auth) ':'
  let pluginInfo :=
    match scheme.queryPlugin with
    | some s => decodeStringList (jsSplit s ';')
    | none => []
  -- the v2ray-plugin spread comes second and overrides the obfs-local one
  { nodeName := percentDecode (replaceFirstStr scheme.hash "#" "")
    hostname := scheme.hostname
    port := digitsToNat scheme.port
    method := userInfo.getD 0 ""
    password := userInfo.getD 1 ""
    udpRelay := udpRelay
    obfs :=
      if slTruthy (slGet pluginInfo "v2ray-plugin") then
        some (if slTruthy (slGet pluginInfo "tls") then "wss" else "ws")
      else if slTruthy (slGet pluginInfo "obfs-local") then
        slStrOpt (slGet pluginInfo "obfs")
      else none
    obfsHost :=
      if slTruthy (slGet pluginInfo "v2ray-plugin") then
        slStrOpt (slGet pluginInfo "host")
      else if slTruthy (slGet pluginInfo "obfs-local") then
        slStrOpt (slGet pluginInfo "obfs-host")
      else none }

/-- The decoder body after the payload is base64-decoded and split into
lines. -/
def getShadowsocksSubscriptionNodes (udpRelay : Option Bool)
    (lines : List String) : List ShadowsocksNodeConfig :=
  (lines.filter (fun item => item ≠ "" && jsStartsWith item "ss://")).map
    (getShadowsocksSubscriptionNode udpRelay)

def getShadowsocksSubscription (udpRelay : Option Bool)
    (response : String) : List ShadowsocksNodeConfig :=
  getShadowsocksSubscriptionNodes udpRelay (jsSplit (fromBase64 response) '\n')

/-! ## Rule-line translation: the Clash template filter
(`clashFilter`, src/lib/template.ts:18-37)

`rules` models the `CLASH_UNSUPPORTED_RULE` constant imported from
`./utils/constant`, which is absent from src (Modelled from the spec: a
target-specific set of unsupported-rule-prefix tokens, compared against
the uppercased line). -/

def clashTestString (item : String) : String :=
  if item ≠ "" ∧ jsTrim item ≠ "" then jsUpper item else ""

def clashLineKeep (rules : List String) (item : String) : Bool :=
  rules.all (fun s => !(jsStartsWith (clashTestString item) s))

def clashLineMap (item : String) : String :=
  if jsStartsWith item "#" = true ∨ jsTrim item = "" then item
  else
    jsTrim (dropFromFirst "//"
      (replaceFirstStr ("- " ++ item) ",no-resolve" ""))

def clashFilterLines (rules : List String) (lines : List String) :
    List String :=
  (lines.filter (clashLineKeep rules)).map clashLineMap

def clashFilter (rules : List String) (str : String) : String :=
  String.intercalate "\n" (clashFilterLines rules (jsSplit str '\n'))

/-! Spec-side restatement of the Clash rule filter, following the words
of the claim: a single pass that drops lines whose uppercased content
starts with an unsupported token, passes blank and `#` lines through
unchanged, and re-emits every other line `- `-prefixed with the
`,no-resolve` suffix and any `//` trailing comment stripped. -/

def specClashDrop (rules : List String) (item : String) : Bool :=
  rules.any (fun s =>
    jsStartsWith (if jsTrim item = "" then "" else jsUpper item) s)

def specClashTransform (item : String) : String :=
  jsTrim (dropFromFirst "//"
    (replaceFirstStr ("- " ++ item) ",no-resolve" ""))

def specClashEmit (rules : List String) (item : String) : Option String :=
  if specClashDrop rules item then none
  else if jsStartsWith item "#" = true ∨ jsTrim item = "" then some item
  else some (specClashTransform item)

/-! ## Concrete nodes and payloads used by counterexamples and witnesses -/

def exDisabledVmess : VmessNodeConfig :=
  { nodeName := "Disabled", hostname := "h", port := 1, method := "auto",
    uuid := "u", alterId := "0", network := "tcp", host := "", path := "",
    tls := false, enable := some false }

def exSsPlain : ShadowsocksNodeConfig :=
  { nodeName := "N", hostname := "h", port := 2, method := "m",
    password := "p" }

def exSsUdpFalse : ShadowsocksNodeConfig :=
  { nodeName := "N", hostname := "h", port := 2, method := "m",
    password := "p", udpRelay := some false }

def exVmessUdpFalse : VmessNodeConfig :=
  { nodeName := "V", hostname := "h", port := 1, method := "auto",
    uuid := "u", alterId := "0", network := "tcp", host := "", path := "",
    tls := false, udp := some false }

def exHttpsNode : HttpsNodeConfig :=
  { nodeName := "H", hostname := "h", port := 443, username := "user",
    password := "pass" }

def exVmessJsonWs : VmessJson :=
  { v := some 2, ps := "ws-node", add := "a", port := 80, id := "id1",
    net := "ws" }

def exVmessJsonKcp : VmessJson :=
  { v := some 2, ps := "kcp-node", add := "b", port := 81, id := "id2",
    net := "kcp" }

def sip002ExampleUri : String :=
  "ss://" ++ toUrlSafeBase64 "aes-256-gcm:pwd" ++ "@1.2.3.4:8388#Test"

/-- The node the decoder produces from `sip002ExampleUri`. -/
def sip002DecodedNode : ShadowsocksNodeConfig :=
  getShadowsocksSubscriptionNode none sip002ExampleUri

/-- That node re-encoded by the Shadowsocks URI serializer (default
group name `'Surgio'`). -/
def sip002Reencoded : String :=
  getShadowsocksNodes [NodeConfig.ss sip002DecodedNode] "Surgio"

/-- The re-encoded URI decoded again. -/
def sip002RedecodedNode : ShadowsocksNodeConfig :=
  getShadowsocksSubscriptionNode none sip002Reencoded

/-! ## Helper lemmas -/

theorem applyFilter_eq_ok {α : Type} [NodeMeta α]
    (nodeList : List α) (filter : FilterArg α)
    (h : filter.wellFormed) :
    applyFilter nodeList filter = .ok (filterNodes nodeList filter) := by
  cases filter with
  | invalid d => exact absurd h (fun hf => hf)
  | undef => rfl
  | null => rfl
  | pred p => rfl
  | composite g => rfl

/-- Every node selected by a benign filter comes from the input list and
is enabled. -/
theorem applyFilter_benign_mem {α : Type} [NodeMeta α]
    {nodeList ns : List α} {filter : FilterArg α}
    (hb : filter.benign) (h : applyFilter nodeList filter = .ok ns) :
    ∀ n ∈ ns, n ∈ nodeList ∧ jsEnabled n = true := by
  intro n hn
  cases filter with
  | invalid d => exact absurd hb (fun hf => hf)
  | undef =>
    simp only [applyFilter] at h
    cases h
    exact ⟨(List.mem_filter.mp hn).1, (List.mem_filter.mp hn).2⟩
  | null =>
    simp only [applyFilter] at h
    cases h
    exact ⟨(List.mem_filter.mp hn).1, (List.mem_filter.mp hn).2⟩
  | pred p =>
    simp only [applyFilter] at h
    cases h
    refine ⟨(List.mem_filter.mp hn).1, ?_⟩
    exact ((Bool.and_eq_true _ _).mp (List.mem_filter.mp hn).2).2
  | composite g =>
    simp only [applyFilter] at h
    cases h
    have hmem : n ∈ nodeList.filter (fun item => jsEnabled item) := hb _ n hn
    exact ⟨(List.mem_filter.mp hmem).1, (List.mem_filter.mp hmem).2⟩

/-- Every line `emitAll` produces is some selected node's emission. -/
theorem emitAll_mem {β : Type} {emit : NodeConfig → Except String (Option β)} :
    ∀ {ns : List NodeConfig} {ls : List β},
      emitAll emit ns = .ok ls → ∀ l ∈ ls, ∃ n ∈ ns, emit n = .ok (some l) := by
  intro ns
  induction ns with
  | nil =>
    intro ls h l hl
    simp only [emitAll, Except.ok.injEq] at h
    subst h
    cases hl
  | cons n rest ih =>
    intro ls h l hl
    simp only [emitAll] at h
    cases he : emit n with
    | error e => rw [he] at h; cases h
    | ok r =>
      rw [he] at h
      cases hr : emitAll emit rest with
      | error e => rw [hr] at h; cases h
      | ok rs =>
        rw [hr] at h
        cases r with
        | some s =>
          injection h with h2
          subst h2
          rcases List.mem_cons.mp hl with rfl | hl2
          · exact ⟨n, List.mem_cons_self n rest, he⟩
          · obtain ⟨n', hn', he'⟩ := ih hr l hl2
            exact ⟨n', List.mem_cons_of_mem n hn', he'⟩
        | none =>
          injection h with h2
          subst h2
          obtain ⟨n', hn', he'⟩ := ih hr l hl
          exact ⟨n', List.mem_cons_of_mem n hn', he'⟩

theorem v2rayNEmit_enabled {n : NodeConfig} {x : String}
    (h : v2rayNEmit n = some x) : jsEnabled n = true := by
  by_cases he : n.enable = some false
  · simp [v2rayNEmit, he] at h
  · simpa [jsEnabled, NodeMeta.enable] using he

theorem ssUriEmit_enabled {g : String} {n : NodeConfig} {x : String}
    (h : ssUriEmit g n = some x) : jsEnabled n = true := by
  by_cases he : n.enable = some false
  · simp [ssUriEmit, he] at h
  · simpa [jsEnabled, NodeMeta.enable] using he

theorem ssrUriEmit_enabled {g : String} {n : NodeConfig} {x : String}
    (h : ssrUriEmit g n = some x) : jsEnabled n = true := by
  by_cases he : n.enable = some false
  · simp [ssrUriEmit, he] at h
  · simpa [jsEnabled, NodeMeta.enable] using he

theorem ssJsonEmit_enabled {n : NodeConfig} {x : SSJsonNode}
    (h : ssJsonEmit n = some x) : jsEnabled n = true := by
  by_cases he : n.enable = some false
  · simp [ssJsonEmit, he] at h
  · simpa [jsEnabled, NodeMeta.enable] using he

/-! ## Claim C2 -/

/-- C2: `applyFilter` with a predicate `p` returns exactly
`input.filter(enabled).filter(p)` — the same elements in the same
relative order, and (being a sublist of the input) without introducing
duplicates. -/
theorem c2_applyFilter_predicate (list : List NodeConfig)
    (p : NodeConfig → Bool) :
    applyFilter list (.pred p) = .ok ((list.filter jsEnabled).filter p)
    ∧ ((list.filter jsEnabled).filter p).Sublist list := by
  constructor
  · show Except.ok _ = _
    rw [List.filter_filter]
  · exact (List.filter_sublist _).trans (List.filter_sublist _)

/-! ## Claim C3 -/

/-- C3 counterexample: a `null` filter does not raise; it silently
behaves like an absent filter (here it passes an enabled node straight
through), so the claim that a null filter is rejected with a fatal error
is false on the code. -/
theorem c3_counterexample :
    applyFilter [NodeConfig.ss exSsPlain] FilterArg.null
      = .ok [NodeConfig.ss exSsPlain] := by rfl

/-- C3 (amended): a *truthy* filter value that is neither a function nor
an object exposing a `filter` operation makes `applyFilter` throw the
fatal configuration error — for every node list, i.e. before any node is
processed — while a `null` filter is silently treated like an absent
filter (only the `enable === false` drop runs). -/
theorem c3_invalid_filter_error (list : List NodeConfig) (desc : String) :
    applyFilter list (.invalid desc)
      = .error ("使用了无效的过滤器 " ++ desc)
    ∧ applyFilter list FilterArg.null = .ok (list.filter jsEnabled) := by
  exact ⟨rfl, rfl⟩

/-! ## Claim C1 -/

/-- C1 counterexample: a composite filter object whose `filter` operation
returns a disabled node puts that node's line into the Quantumult X
output — the input list holds only the `enable = false` node, yet the
serializer's output is a non-empty line for it, so a disabled node is not
absent from every serializer's output for *every* filter. -/
theorem c1_counterexample :
    NodeConfig.enable (NodeConfig.vmess exDisabledVmess) = some false ∧
    getQuantumultXNodes [NodeConfig.vmess exDisabledVmess]
      (FilterArg.composite (fun _ => [NodeConfig.vmess exDisabledVmess]))
      = .ok "vmess=h:1, method=chacha20-ietf-poly1305, password=u, udp-relay=true, tag=Disabled" :=
  ⟨rfl, rfl⟩

/-- C1 (amended): for every node list and every *benign* filter — absent,
null, a predicate, or a composite filter whose `filter` operation only
selects among the nodes it is given — every element of every serializer's
output is the emission of an enabled node of the input list, so a node
with `enable === false` contributes nothing to any of the nine
serializers. (Unrestricted composite filters can fabricate nodes, which
is what the counterexample exploits.) -/
theorem c1_disabled_nodes_absent (list : List NodeConfig)
    (filter : FilterArg NodeConfig) (hb : filter.benign)
    (configFolder homeDir groupName : String) :
    (∀ lines, getSurgeNodeLines configFolder homeDir list filter = .ok lines →
      ∀ line ∈ lines, ∃ n, n ∈ list ∧ jsEnabled n = true ∧
        surgeEmit configFolder homeDir n = .ok (some line)) ∧
    (∀ objs, getClashNodes list filter = .ok objs →
      ∀ o ∈ objs, ∃ n, n ∈ list ∧ jsEnabled n = true ∧ clashEmit n = some o) ∧
    (∀ lines, getMellowNodeLines list filter = .ok lines →
      ∀ line ∈ lines, ∃ n, n ∈ list ∧ jsEnabled n = true ∧
        mellowEmit n = some line) ∧
    (∀ lines, getQuantumultNodeLines list groupName filter = .ok lines →
      ∀ line ∈ lines, ∃ n, n ∈ list ∧ jsEnabled n = true ∧
        quantumultEmit groupName n = some line) ∧
    (∀ lines, getQuantumultXNodeLines list filter = .ok lines →
      ∀ line ∈ lines, ∃ n, n ∈ list ∧ jsEnabled n = true ∧
        qxEmit n = some line) ∧
    (∀ line ∈ getV2rayNNodeLines list, ∃ n, n ∈ list ∧ jsEnabled n = true ∧
      v2rayNEmit n = some line) ∧
    (∀ line ∈ getShadowsocksNodeLines list groupName, ∃ n, n ∈ list ∧
      jsEnabled n = true ∧ ssUriEmit groupName n = some line) ∧
    (∀ line ∈ getShadowsocksrNodeLines list groupName, ∃ n, n ∈ list ∧
      jsEnabled n = true ∧ ssrUriEmit groupName n = some line) ∧
    (∀ o ∈ getShadowsocksNodesJSON list, ∃ n, n ∈ list ∧
      jsEnabled n = true ∧ ssJsonEmit n = some o) := by
  refine ⟨?_, ?_, ?_, ?_, ?_, ?_, ?_, ?_, ?_⟩
  · -- Surge
    intro lines hok line hline
    simp only [getSurgeNodeLines] at hok
    cases hap : applyFilter list filter with
    | error e => rw [hap] at hok; cases hok
    | ok ns =>
      rw [hap] at hok
      obtain ⟨n, hn, hemit⟩ := emitAll_mem hok line hline
      obtain ⟨hmem, hen⟩ := applyFilter_benign_mem hb hap n hn
      exact ⟨n, hmem, hen, hemit⟩
  · -- Clash
    intro objs hok o ho
    simp only [getClashNodes] at hok
    cases hap : applyFilter list filter with
    | error e => rw [hap] at hok; cases hok
    | ok ns =>
      rw [hap] at hok
      injection hok with h2; subst h2
      obtain ⟨n, hn, hemit⟩ := List.mem_filterMap.mp ho
      obtain ⟨hmem, hen⟩ := applyFilter_benign_mem hb hap n hn
      exact ⟨n, hmem, hen, hemit⟩
  · -- Mellow
    intro lines hok line hline
    simp only [getMellowNodeLines] at hok
    cases hap : applyFilter list filter with
    | error e => rw [hap] at hok; cases hok
    | ok ns =>
      rw [hap] at hok
      injection hok with h2; subst h2
      obtain ⟨n, hn, hemit⟩ := List.mem_filterMap.mp hline
      obtain ⟨hmem, hen⟩ := applyFilter_benign_mem hb hap n hn
      exact ⟨n, hmem, hen, hemit⟩
  · -- Quantumult
    intro lines hok line hline
    simp only [getQuantumultNodeLines] at hok
    cases hap : applyFilter list filter with
    | error e => rw [hap] at hok; cases hok
    | ok ns =>
      rw [hap] at hok
      injection hok with h2; subst h2
      have hline2 := (List.mem_filter.mp hline).1
      obtain ⟨n, hn, hemit⟩ := List.mem_filterMap.mp hline2
      obtain ⟨hmem, hen⟩ := applyFilter_benign_mem hb hap n hn
      exact ⟨n, hmem, hen, hemit⟩
  · -- Quantumult X
    intro lines hok line hline
    simp only [getQuantumultXNodeLines] at hok
    cases hap : applyFilter list filter with
    | error e => rw [hap] at hok; cases hok
    | ok ns =>
      rw [hap] at hok
      injection hok with h2; subst h2
      obtain ⟨n, hn, hemit⟩ := List.mem_filterMap.mp hline
      obtain ⟨hmem, hen⟩ := applyFilter_benign_mem hb hap n hn
      exact ⟨n, hmem, hen, hemit⟩
  · -- V2RayN
    intro line hline
    simp only [getV2rayNNodeLines] at hline
    obtain ⟨n, hn, hemit⟩ := List.mem_filterMap.mp hline
    exact ⟨n, hn, v2rayNEmit_enabled hemit, hemit⟩
  · -- Shadowsocks URIs
    intro line hline
    simp only [getShadowsocksNodeLines] at hline
    obtain ⟨n, hn, hemit⟩ := List.mem_filterMap.mp hline
    exact ⟨n, hn, ssUriEmit_enabled hemit, hemit⟩
  · -- ShadowsocksR URIs
    intro line hline
    simp only [getShadowsocksrNodeLines] at hline
    obtain ⟨n, hn, hemit⟩ := List.mem_filterMap.mp hline
    exact ⟨n, hn, ssrUriEmit_enabled hemit, hemit⟩
  · -- Shadowsocks JSON
    intro o ho
    simp only [getShadowsocksNodesJSON] at ho
    obtain ⟨n, hn, hemit⟩ := List.mem_filterMap.mp ho
    exact ⟨n, hn, ssJsonEmit_enabled hemit, hemit⟩

theorem c1_witness :
    FilterArg.benign (FilterArg.undef : FilterArg NodeConfig) ∧
    (∀ o ∈ getShadowsocksNodesJSON [NodeConfig.ss exSsPlain], ∃ n,
      n ∈ [NodeConfig.ss exSsPlain] ∧ jsEnabled n = true ∧
      ssJsonEmit n = some o) :=
  ⟨True.intro,
   (c1_disabled_nodes_absent [NodeConfig.ss exSsPlain] FilterArg.undef
     True.intro "/cfg" "/home/u" "Surgio").2.2.2.2.2.2.2.2⟩

/-! ## Claims C4 and C5 -/

/-- When `udp-relay` is unset, no attribute of a Quantumult X
Shadowsocks line carries the `udp-relay` key. -/
theorem qxSsAttrs_no_udpRelay (s : ShadowsocksNodeConfig)
    (h : s.udpRelay = none) :
    (qxSsAttrs s).all (fun a => !(a.isKey "udp-relay")) = true := by
  simp only [qxSsAttrs, h, truthyOptBool, pickAndFormatStringList,
    ShadowsocksNodeConfig.jsProp, List.all_append]
  cases s.tfo with
  | none => split <;> split <;> simp [Attr.isKey, optStrMem]
  | some b =>
    cases b <;> split <;> split <;> simp [Attr.isKey, optStrMem]

/-- When `udp-relay` is unset, no attribute of a Quantumult X
ShadowsocksR line carries the `udp-relay` key. -/
theorem qxSsrAttrs_no_udpRelay (r : ShadowsocksrNodeConfig)
    (h : r.udpRelay = none) :
    (qxSsrAttrs r).all (fun a => !(a.isKey "udp-relay")) = true := by
  simp only [qxSsrAttrs, h, truthyOptBool, pickAndFormatStringList,
    ShadowsocksrNodeConfig.jsProp, List.all_append]
  cases r.tfo with
  | none => simp [Attr.isKey]
  | some b => cases b <;> simp [Attr.isKey]

/-- C4 counterexample: the Clash serializer emits the `udp` flag even
when the Shadowsocks node has no `udp-relay` value, silently defaulting
it to `false` — the outputs for an unset field and for an explicit
`false` coincide, so `undefined` is *not* kept distinct from `false` by
every serializer. -/
theorem c4_counterexample :
    exSsPlain.udpRelay = none ∧ exSsUdpFalse.udpRelay = some false ∧
    getClashNodes [NodeConfig.ss exSsPlain] FilterArg.undef
      = getClashNodes [NodeConfig.ss exSsUdpFalse] FilterArg.undef ∧
    getClashNodes [NodeConfig.ss exSsPlain] FilterArg.undef
      = .ok [ClashProxyNode.ss
          { cipher := "m", name := "N", password := "p", port := 2,
            server := "h", udp := false, plugin := none }] :=
  ⟨rfl, rfl, rfl, rfl⟩

/-- When `tls13` is unset, no attribute of a natively rendered Surge
VMess line carries the `tls13` key. -/
theorem surgeVmessAttrs_no_tls13 (v : VmessNodeConfig)
    (h : v.tls13 = none) :
    (surgeVmessNativeAttrs v).all (fun a => !(a.isKey "tls13")) = true := by
  cases hscv : v.skipCertVerify <;> cases hur : v.udpRelay <;>
    cases htf : v.tfo <;> cases hmp : v.mptcp <;>
    by_cases hnw : v.network = "ws" <;> cases htl : v.tls <;>
      simp [surgeVmessNativeAttrs, h, hscv, hur, htf, hmp, hnw, htl,
        optBoolAttr, Attr.isKey]

/-- When `skipCertVerify` is unset, no attribute of a natively rendered
Surge VMess line carries the `skip-cert-verify` key. -/
theorem surgeVmessAttrs_no_skipCertVerify (v : VmessNodeConfig)
    (h : v.skipCertVerify = none) :
    (surgeVmessNativeAttrs v).all
      (fun a => !(a.isKey "skip-cert-verify")) = true := by
  cases h13 : v.tls13 <;> cases hur : v.udpRelay <;>
    cases htf : v.tfo <;> cases hmp : v.mptcp <;>
    by_cases hnw : v.network = "ws" <;> cases htl : v.tls <;>
      simp [surgeVmessNativeAttrs, h, h13, hur, htf, hmp, hnw, htl,
        optBoolAttr, Attr.isKey]

/-- When `udp-relay` is unset, no attribute of a natively rendered Surge
VMess line carries the `udp-relay` key. -/
theorem surgeVmessAttrs_no_udpRelay (v : VmessNodeConfig)
    (h : v.udpRelay = none) :
    (surgeVmessNativeAttrs v).all (fun a => !(a.isKey "udp-relay")) = true := by
  cases h13 : v.tls13 <;> cases hscv : v.skipCertVerify <;>
    cases htf : v.tfo <;> cases hmp : v.mptcp <;>
    by_cases hnw : v.network = "ws" <;> cases htl : v.tls <;>
      simp [surgeVmessNativeAttrs, h, h13, hscv, htf, hmp, hnw, htl,
        optBoolAttr, Attr.isKey]

/-- When `tfo` is unset, no attribute of a natively rendered Surge VMess
line carries the `tfo` key. -/
theorem surgeVmessAttrs_no_tfo (v : VmessNodeConfig)
    (h : v.tfo = none) :
    (surgeVmessNativeAttrs v).all (fun a => !(a.isKey "tfo")) = true := by
  cases h13 : v.tls13 <;> cases hscv : v.skipCertVerify <;>
    cases hur : v.udpRelay <;> cases hmp : v.mptcp <;>
    by_cases hnw : v.network = "ws" <;> cases htl : v.tls <;>
      simp [surgeVmessNativeAttrs, h, h13, hscv, hur, hmp, hnw, htl,
        optBoolAttr, Attr.isKey]

/-- When `mptcp` is unset, no attribute of a natively rendered Surge
VMess line carries the `mptcp` key. -/
theorem surgeVmessAttrs_no_mptcp (v : VmessNodeConfig)
    (h : v.mptcp = none) :
    (surgeVmessNativeAttrs v).all (fun a => !(a.isKey "mptcp")) = true := by
  cases h13 : v.tls13 <;> cases hscv : v.skipCertVerify <;>
    cases hur : v.udpRelay <;> cases htf : v.tfo <;>
    by_cases hnw : v.network = "ws" <;> cases htl : v.tls <;>
      simp [surgeVmessNativeAttrs, h, h13, hscv, hur, htf, hnw, htl,
        optBoolAttr, Attr.isKey]

/-- C4 (amended): optional boolean fields are emitted only when present
and never defaulted for the Surge serializer — `tls13`,
`skip-cert-verify`, `tfo`, `mptcp` on HTTPS lines and `tls13`,
`skip-cert-verify`, `udp-relay`, `tfo`, `mptcp` on natively rendered
VMess lines — for the Clash VMess `udp` field (forwarded exactly as
present or absent), and for the Quantumult X Shadowsocks and
ShadowsocksR `udp-relay` keys; the exceptions the counterexample forces
are the Clash Shadowsocks `udp` field (always emitted, `false` when
unset) and the Quantumult X VMess `udp-relay` key (always emitted, see
C5). -/
theorem c4_optional_flags (c : HttpsNodeConfig) (v : VmessNodeConfig)
    (s : ShadowsocksNodeConfig) (r : ShadowsocksrNodeConfig) :
    (c.tls13 = none →
      (surgeHttpsAttrs c).all (fun a => !(a.isKey "tls13")) = true) ∧
    (∀ b, c.tls13 = some b →
      Attr.kv "tls13" (boolStr b) ∈ surgeHttpsAttrs c) ∧
    (c.skipCertVerify = none →
      (surgeHttpsAttrs c).all (fun a => !(a.isKey "skip-cert-verify")) = true) ∧
    (∀ b, c.skipCertVerify = some b →
      Attr.kv "skip-cert-verify" (boolStr b) ∈ surgeHttpsAttrs c) ∧
    (c.tfo = none →
      (surgeHttpsAttrs c).all (fun a => !(a.isKey "tfo")) = true) ∧
    (∀ b, c.tfo = some b →
      Attr.kv "tfo" (boolStr b) ∈ surgeHttpsAttrs c) ∧
    (c.mptcp = none →
      (surgeHttpsAttrs c).all (fun a => !(a.isKey "mptcp")) = true) ∧
    (∀ b, c.mptcp = some b →
      Attr.kv "mptcp" (boolStr b) ∈ surgeHttpsAttrs c) ∧
    (v.tls13 = none →
      (surgeVmessNativeAttrs v).all (fun a => !(a.isKey "tls13")) = true) ∧
    (v.skipCertVerify = none →
      (surgeVmessNativeAttrs v).all
        (fun a => !(a.isKey "skip-cert-verify")) = true) ∧
    (v.udpRelay = none →
      (surgeVmessNativeAttrs v).all (fun a => !(a.isKey "udp-relay")) = true) ∧
    (∀ b, v.udpRelay = some b →
      Attr.kv "udp-relay" (boolStr b) ∈ surgeVmessNativeAttrs v) ∧
    (v.tfo = none →
      (surgeVmessNativeAttrs v).all (fun a => !(a.isKey "tfo")) = true) ∧
    (v.mptcp = none →
      (surgeVmessNativeAttrs v).all (fun a => !(a.isKey "mptcp")) = true) ∧
    ((clashVmessOf v).udp = v.udp) ∧
    (s.udpRelay = none →
      (qxSsAttrs s).all (fun a => !(a.isKey "udp-relay")) = true) ∧
    (r.udpRelay = none →
      (qxSsrAttrs r).all (fun a => !(a.isKey "udp-relay")) = true) := by
  refine ⟨?_, ?_, ?_, ?_, ?_, ?_, ?_, ?_,
    surgeVmessAttrs_no_tls13 v, surgeVmessAttrs_no_skipCertVerify v,
    surgeVmessAttrs_no_udpRelay v, ?_,
    surgeVmessAttrs_no_tfo v, surgeVmessAttrs_no_mptcp v,
    rfl, qxSsAttrs_no_udpRelay s, qxSsrAttrs_no_udpRelay r⟩
  · intro h
    simp only [surgeHttpsAttrs, h, optBoolAttr, List.all_append]
    cases c.skipCertVerify <;> cases c.tfo <;> cases c.mptcp <;>
      simp [Attr.isKey, optBoolAttr]
  · intro b h
    simp [surgeHttpsAttrs, h, optBoolAttr]
  · intro h
    simp only [surgeHttpsAttrs, h, optBoolAttr, List.all_append]
    cases c.tls13 <;> cases c.tfo <;> cases c.mptcp <;>
      simp [Attr.isKey, optBoolAttr]
  · intro b h
    simp [surgeHttpsAttrs, h, optBoolAttr]
  · intro h
    simp only [surgeHttpsAttrs, h, optBoolAttr, List.all_append]
    cases c.tls13 <;> cases c.skipCertVerify <;> cases c.mptcp <;>
      simp [Attr.isKey, optBoolAttr]
  · intro b h
    simp [surgeHttpsAttrs, h, optBoolAttr]
  · intro h
    simp only [surgeHttpsAttrs, h, optBoolAttr, List.all_append]
    cases c.tls13 <;> cases c.skipCertVerify <;> cases c.tfo <;>
      simp [Attr.isKey, optBoolAttr]
  · intro b h
    simp [surgeHttpsAttrs, h, optBoolAttr]
  · intro b h
    simp [surgeVmessNativeAttrs, h, optBoolAttr]

theorem c4_witness :
    exHttpsNode.tls13 = none ∧
    (surgeHttpsAttrs exHttpsNode).all (fun a => !(a.isKey "tls13")) = true :=
  ⟨rfl,
   (c4_optional_flags exHttpsNode exVmessUdpFalse exSsPlain
     { nodeName := "R", hostname := "h", port := 3, method := "m",
       password := "p", protocol := "origin", protoparam := "",
       obfs := "plain", obfsparam := "" }).1 rfl⟩

/-- C5 counterexample: a VMess node with `udp` explicitly `false` still
gets `udp-relay=true` on its Quantumult X line (`nodeConfig.udp || true`
is always `true`), so the emitted value does not equal the node's `udp`
value when that value is set. -/
theorem c5_counterexample :
    exVmessUdpFalse.udp = some false ∧
    Attr.kv "udp-relay" "true" ∈ qxVmessAttrs exVmessUdpFalse ∧
    Attr.kv "udp-relay" "false" ∉ qxVmessAttrs exVmessUdpFalse ∧
    getQuantumultXNodes [NodeConfig.vmess exVmessUdpFalse] FilterArg.undef
      = .ok "vmess=h:1, method=chacha20-ietf-poly1305, password=u, udp-relay=true, tag=V" :=
  ⟨rfl, by decide, by decide, rfl⟩

/-- C5 (amended): on every Quantumult X VMess line the `udp-relay` key is
emitted with the value `true` — whether the node's `udp` field is unset,
`true`, or `false` (the source computes `udp || true`) — while
Shadowsocks and ShadowsocksR lines omit the `udp-relay` key entirely
when it is unset. -/
theorem c5_qx_udp_relay (v : VmessNodeConfig) (s : ShadowsocksNodeConfig)
    (r : ShadowsocksrNodeConfig) :
    Attr.kv "udp-relay" "true" ∈ qxVmessAttrs v ∧
    (s.udpRelay = none →
      (qxSsAttrs s).all (fun a => !(a.isKey "udp-relay")) = true) ∧
    (r.udpRelay = none →
      (qxSsrAttrs r).all (fun a => !(a.isKey "udp-relay")) = true) := by
  refine ⟨?_, qxSsAttrs_no_udpRelay s, qxSsrAttrs_no_udpRelay r⟩
  cases hu : v.udp with
  | none => simp [qxVmessAttrs, hu, boolStr]
  | some b => cases b <;> simp [qxVmessAttrs, hu, boolStr]

theorem c5_witness :
    exSsPlain.udpRelay = none ∧
    (qxSsAttrs exSsPlain).all (fun a => !(a.isKey "udp-relay")) = true :=
  ⟨rfl,
   (c5_qx_udp_relay exVmessUdpFalse exSsPlain
     { nodeName := "R", hostname := "h", port := 3, method := "m",
       password := "p", protocol := "origin", protoparam := "",
       obfs := "plain", obfsparam := "" }).2.1 rfl⟩

/-! ## Claims C6 and C10 -/

/-- When every payload carries version 2, the V2RayN decode succeeds and
splits the payloads into decoded nodes (supported networks, in order)
and one warning per unsupported-network payload. -/
theorem v2rayn_decode_ok (url : String) (jsons : List VmessJson)
    (hv : ∀ j ∈ jsons, j.v = some 2) :
    getV2rayNSubscriptionFromJson url jsons = .ok
      ((jsons.filter (fun j => !(["kcp", "http"].contains j.net))).map
        vmessNodeOf,
       (jsons.filter (fun j => ["kcp", "http"].contains j.net)).map
        vmessNetWarning) := by
  induction jsons with
  | nil => rfl
  | cons j rest ih =>
    have hj := hv j (List.mem_cons_self j rest)
    have ih2 := ih (fun x hx => hv x (List.mem_cons_of_mem j hx))
    by_cases hc : j.net = "kcp" ∨ j.net = "http"
    · rcases hc with h | h <;>
        simp [getV2rayNSubscriptionFromJson, decodeVmessLine, hj, h, ih2,
          List.filter_cons]
    · push_neg at hc
      simp [getV2rayNSubscriptionFromJson, decodeVmessLine, hj, hc.1, hc.2,
        ih2, List.filter_cons]

/-- C6: if every `vmess://` payload has version 2 and at least one has
`net` equal to `kcp` or `http`, the decode still succeeds, the output is
strictly shorter than the line count (exactly the supported payloads
survive), and one observable warning exists per dropped payload. -/
theorem c6_vmess_unsupported_dropped (url : String) (jsons : List VmessJson)
    (hv : ∀ j ∈ jsons, j.v = some 2)
    (hbad : ∃ j ∈ jsons, ["kcp", "http"].contains j.net = true) :
    ∃ ns ws, getV2rayNSubscriptionFromJson url jsons = .ok (ns, ws) ∧
      ns.length = (jsons.filter
        (fun j => !(["kcp", "http"].contains j.net))).length ∧
      ns.length < jsons.length ∧
      ws.length = (jsons.filter
        (fun j => ["kcp", "http"].contains j.net)).length ∧
      ws ≠ [] := by
  refine ⟨_, _, v2rayn_decode_ok url jsons hv, ?_, ?_, ?_, ?_⟩
  · simp
  · rw [List.length_map]
    obtain ⟨j, hj, hc⟩ := hbad
    have hor : j.net = "kcp" ∨ j.net = "http" := by simpa using hc
    refine List.length_filter_lt_length_iff_exists.mpr ⟨j, hj, ?_⟩
    simp
    exact fun hk => hor.resolve_left hk
  · simp
  · obtain ⟨j, hj, hc⟩ := hbad
    intro hnil
    rw [List.map_eq_nil_iff] at hnil
    exact (List.filter_eq_nil_iff.mp hnil j hj) hc

theorem c6_witness :
    (∀ j ∈ [exVmessJsonWs, exVmessJsonKcp], j.v = some 2) ∧
    (∃ j ∈ [exVmessJsonWs, exVmessJsonKcp],
      ["kcp", "http"].contains j.net = true) ∧
    (∃ ns ws, getV2rayNSubscriptionFromJson "http://example.com/sub"
        [exVmessJsonWs, exVmessJsonKcp] = .ok (ns, ws) ∧
      ns.length = ([exVmessJsonWs, exVmessJsonKcp].filter
        (fun j => !(["kcp", "http"].contains j.net))).length ∧
      ns.length < [exVmessJsonWs, exVmessJsonKcp].length ∧
      ws.length = ([exVmessJsonWs, exVmessJsonKcp].filter
        (fun j => ["kcp", "http"].contains j.net)).length ∧
      ws ≠ []) :=
  ⟨by decide, by decide,
   c6_vmess_unsupported_dropped "http://example.com/sub"
     [exVmessJsonWs, exVmessJsonKcp] (by decide) (by decide)⟩

/-- C10: a surviving VMess payload decodes with fixed defaults —
`alterId` is `"0"` when `aid` is absent or falsy, `host` is `""` when
absent, `path` is `"/"` when absent, and the node's `tls` is `true`
exactly when the JSON `tls` field is the string `"tls"`. -/
theorem c10_vmess_decode_defaults (url : String) (json : VmessJson)
    (hversion : json.v = some 2)
    (hnet : ["kcp", "http"].contains json.net = false) :
    decodeVmessLine url json = .ok (some (vmessNodeOf json)) ∧
    (json.aid = none ∨ json.aid = some "" →
      (vmessNodeOf json).alterId = "0") ∧
    (∀ a, json.aid = some a → a ≠ "" → (vmessNodeOf json).alterId = a) ∧
    (json.host = none → (vmessNodeOf json).host = "") ∧
    (json.path = none → (vmessNodeOf json).path = "/") ∧
    ((vmessNodeOf json).tls = true ↔ json.tls = some "tls") := by
  refine ⟨?_, ?_, ?_, ?_, ?_, ?_⟩
  · have h := hnet
    simp only [List.contains_cons, List.contains_nil, Bool.or_false,
      Bool.or_eq_false_iff, beq_eq_false_iff_ne, ne_eq] at h
    simp [decodeVmessLine, hversion, h.1, h.2]
  · intro h; rcases h with h | h <;> simp [vmessNodeOf, jsOrOpt, h]
  · intro a ha hne; simp [vmessNodeOf, jsOrOpt, ha, hne]
  · intro h; simp [vmessNodeOf, jsOrOpt, h]
  · intro h; simp [vmessNodeOf, jsOrOpt, h]
  · simp [vmessNodeOf]

/-! ## Claim C7 -/

/-- C7: the proxy-group member list is `existingProxies ++ filtered
candidate names` when both are supplied, `existingProxies` alone when
the filter is absent, and the filtered candidate names alone when
`existingProxies` is absent; the health-check `url`/`interval` are
attached exactly for `url-test`/`fallback`/`load-balance` groups, never
for `select`. -/
theorem c7_proxy_group (ruleName ruleType : String)
    (nodeNameList : List SimpleNodeConfig)
    (options : ClashProxyGroupOptions)
    (hwf : options.filter.wellFormed) :
    ∃ g, generateClashProxyGroup ruleName ruleType nodeNameList options
        = .ok g ∧
      g.name = ruleName ∧ g.type = ruleType ∧
      (∀ ex, options.existingProxies = some ex →
        options.filter.truthy = true →
        g.proxies = ex ++ (filterNodes nodeNameList options.filter).map
          SimpleNodeConfig.nodeName) ∧
      (∀ ex, options.existingProxies = some ex →
        options.filter.truthy = false → g.proxies = ex) ∧
      (options.existingProxies = none →
        g.proxies = (filterNodes nodeNameList options.filter).map
          SimpleNodeConfig.nodeName) ∧
      (["url-test", "fallback", "load-balance"].contains ruleType = true →
        g.url = options.proxyTestUrl ∧
        g.interval = options.proxyTestInterval) ∧
      (ruleType = "select" → g.url = none ∧ g.interval = none) := by
  have hap := applyFilter_eq_ok nodeNameList options.filter hwf
  cases hex : options.existingProxies with
  | some ex =>
    cases ht : options.filter.truthy with
    | true =>
      refine ⟨{ type := ruleType, name := ruleName,
                proxies := ex ++
                  (filterNodes nodeNameList options.filter).map
                    SimpleNodeConfig.nodeName,
                url := if ["url-test", "fallback", "load-balance"].contains
                    ruleType then options.proxyTestUrl else none,
                interval :=
                  if ["url-test", "fallback", "load-balance"].contains
                    ruleType then options.proxyTestInterval else none },
        ?_, rfl, rfl, ?_, ?_, ?_, ?_, ?_⟩
      · simp only [generateClashProxyGroup, hex, ht, hap, if_true]
      · intro ex2 hex2 _
        injection hex2 with h2
        subst h2
        rfl
      · intro ex2 _ ht2
        cases ht2
      · intro hnone
        cases hnone
      · intro hc
        rw [hc]
        exact ⟨rfl, rfl⟩
      · intro hsel
        subst hsel
        exact ⟨rfl, rfl⟩
    | false =>
      refine ⟨{ type := ruleType, name := ruleName, proxies := ex,
                url := if ["url-test", "fallback", "load-balance"].contains
                    ruleType then options.proxyTestUrl else none,
                interval :=
                  if ["url-test", "fallback", "load-balance"].contains
                    ruleType then options.proxyTestInterval else none },
        ?_, rfl, rfl, ?_, ?_, ?_, ?_, ?_⟩
      · simp only [generateClashProxyGroup, hex, ht, Bool.false_eq_true,
          if_false]
      · intro ex2 _ ht2
        cases ht2
      · intro ex2 hex2 _
        cases hex2
        rfl
      · intro hnone
        cases hnone
      · intro hc
        rw [hc]
        exact ⟨rfl, rfl⟩
      · intro hsel
        subst hsel
        exact ⟨rfl, rfl⟩
  | none =>
    refine ⟨{ type := ruleType, name := ruleName,
              proxies := (filterNodes nodeNameList options.filter).map
                SimpleNodeConfig.nodeName,
              url := if ["url-test", "fallback", "load-balance"].contains
                  ruleType then options.proxyTestUrl else none,
              interval :=
                if ["url-test", "fallback", "load-balance"].contains
                  ruleType then options.proxyTestInterval else none },
      ?_, rfl, rfl, ?_, ?_, ?_, ?_, ?_⟩
    · simp only [generateClashProxyGroup, hex, hap]
    · intro ex2 hex2
      cases hex2
    · intro ex2 hex2
      cases hex2
    · intro _
      rfl
    · intro hc
      rw [hc]
      exact ⟨rfl, rfl⟩
    · intro hsel
      subst hsel
      exact ⟨rfl, rfl⟩

theorem c7_witness :
    (FilterArg.pred (fun n => jsStartsWith n.nodeName "X") :
      FilterArg SimpleNodeConfig).wellFormed ∧
    (∃ g, generateClashProxyGroup "G" "select"
        [{ nodeName := "X1" }, { nodeName := "Y1" },
         { nodeName := "X2", enable := some false }]
        { filter := FilterArg.pred (fun n => jsStartsWith n.nodeName "X"),
          existingProxies := some ["A", "B"] } = .ok g ∧
      g.proxies = ["A", "B", "X1"] ∧ g.url = none ∧ g.interval = none) := by
  refine ⟨True.intro, ?_⟩
  obtain ⟨g, hok, _, _, hboth, _, _, _, hsel⟩ :=
    c7_proxy_group "G" "select"
      [{ nodeName := "X1" }, { nodeName := "Y1" },
       { nodeName := "X2", enable := some false }]
      { filter := FilterArg.pred (fun n => jsStartsWith n.nodeName "X"),
        existingProxies := some ["A", "B"] } True.intro
  refine ⟨g, hok, ?_, (hsel rfl).1, (hsel rfl).2⟩
  rw [hboth ["A", "B"] rfl rfl]
  rfl

theorem c10_witness :
    exVmessJsonWs.v = some 2 ∧
    ["kcp", "http"].contains exVmessJsonWs.net = false ∧
    exVmessJsonWs.path = none ∧
    (vmessNodeOf exVmessJsonWs).path = "/" :=
  ⟨rfl, by decide, rfl,
   (c10_vmess_decode_defaults "http://example.com/sub" exVmessJsonWs rfl
     (by decide)).2.2.2.2.1 rfl⟩

/-! ## Claim C8 -/

/-- C8: decoding the SIP002 URI
`ss://<urlsafe_b64("aes-256-gcm:pwd")>@1.2.3.4:8388#Test` and re-encoding
the node through the Shadowsocks URI serializer yields a URI whose
decoded method, password, hostname, port, and node name equal the
originals. -/
theorem c8_sip002_roundtrip :
    sip002DecodedNode.method = "aes-256-gcm" ∧
    sip002DecodedNode.password = "pwd" ∧
    sip002DecodedNode.hostname = "1.2.3.4" ∧
    sip002DecodedNode.port = 8388 ∧
    sip002DecodedNode.nodeName = "Test" ∧
    sip002Reencoded
      = "ss://YWVzLTI1Ni1nY206cHdk@1.2.3.4:8388/?group=Surgio#Test" ∧
    sip002RedecodedNode.method = sip002DecodedNode.method ∧
    sip002RedecodedNode.password = sip002DecodedNode.password ∧
    sip002RedecodedNode.hostname = sip002DecodedNode.hostname ∧
    sip002RedecodedNode.port = sip002DecodedNode.port ∧
    sip002RedecodedNode.nodeName = sip002DecodedNode.nodeName := by
  decide

/-! ## Claim C9 -/

theorem string_data_ne_nil {r : String} (h : r ≠ "") : r.data ≠ [] := by
  intro hd
  apply h
  cases r with
  | mk d =>
    cases hd
    rfl

theorem jsStartsWith_empty (r : String) (h : r ≠ "") :
    jsStartsWith "" r = false := by
  unfold jsStartsWith
  cases hr : r.data with
  | nil => exact absurd hr (string_data_ne_nil h)
  | cons c cs => rfl

theorem startsWith_hash_iff (s : String) :
    jsStartsWith s "#" = true ↔ ∃ t, s.data = '#' :: t := by
  unfold jsStartsWith
  show (List.isPrefixOf ['#'] s.data) = true ↔ _
  cases hs : s.data with
  | nil =>
    constructor
    · intro h
      exact absurd h (by decide)
    · rintro ⟨t, ht⟩
      cases ht
  | cons c cs =>
    show ('#' == c && List.isPrefixOf [] cs) = true ↔ ∃ t, c :: cs = '#' :: t
    constructor
    · intro h
      have hc : '#' = c := by simpa using h
      exact ⟨cs, by rw [← hc]⟩
    · rintro ⟨t, ht⟩
      injection ht with h1 h2
      subst h1
      cases cs <;> rfl

theorem jsTrim_ne_empty_head {c : Char} {t : List Char}
    (hc : isWsChar c = false) : jsTrim ⟨c :: t⟩ ≠ "" := by
  unfold jsTrim
  intro h
  have hdata : (((c :: t).dropWhile isWsChar).reverse.dropWhile
      isWsChar).reverse = [] := congrArg String.data h
  rw [List.reverse_eq_nil_iff] at hdata
  rw [List.dropWhile_eq_nil_iff] at hdata
  have hcmem : c ∈ ((c :: t).dropWhile isWsChar).reverse := by
    rw [List.dropWhile_cons_of_neg (by simp [hc])]
    exact List.mem_reverse.mpr (List.mem_cons_self c t)
  have := hdata c hcmem
  rw [hc] at this
  cases this

theorem jsStartsWith_head_ne {s r : String} {c d : Char}
    {t u : List Char} (hs : s.data = c :: t) (hr : r.data = d :: u)
    (hne : d ≠ c) : jsStartsWith s r = false := by
  unfold jsStartsWith
  rw [hs, hr]
  show (d == c && List.isPrefixOf u t) = false
  simp [hne]

/-- The source's guarded test string agrees with the spec-side one. -/
theorem clashTestString_eq (item : String) :
    clashTestString item
      = (if jsTrim item = "" then "" else jsUpper item) := by
  by_cases h0 : item = ""
  · subst h0
    rfl
  · by_cases h1 : jsTrim item = ""
    · simp [clashTestString, h0, h1]
    · simp [clashTestString, h0, h1]

/-- The source's all-tokens-miss filter test is the negation of the
spec-side some-token-matches drop test. -/
theorem clashLineKeep_eq (rules : List String) (item : String) :
    clashLineKeep rules item = !(specClashDrop rules item) := by
  unfold clashLineKeep specClashDrop
  rw [clashTestString_eq]
  induction rules with
  | nil => rfl
  | cons r rs ih => simp [List.all_cons, List.any_cons, ih, Bool.not_or]

/-- Comment lines and blank lines survive the unsupported-prefix drop,
provided the token set has no empty token and no token starting `#`. -/
theorem clashLineKeep_passthrough (rules : List String)
    (h1 : ∀ r ∈ rules, r ≠ "")
    (h2 : ∀ r ∈ rules, jsStartsWith r "#" = false)
    (item : String)
    (hg : jsStartsWith item "#" = true ∨ jsTrim item = "") :
    clashLineKeep rules item = true := by
  unfold clashLineKeep
  rw [List.all_eq_true]
  intro r hr
  have hrne := h1 r hr
  rw [Bool.not_eq_true']
  rcases hg with hc | hb
  · obtain ⟨t, hdata⟩ := (startsWith_hash_iff item).mp hc
    have hne : item ≠ "" := by
      intro h0
      rw [h0] at hdata
      cases hdata
    have hitem : item = ⟨'#' :: t⟩ := by
      cases item with
      | mk d => cases hdata; rfl
    have htrim : jsTrim item ≠ "" := by
      rw [hitem]
      exact jsTrim_ne_empty_head (by decide)
    have hcts : clashTestString item = jsUpper item := by
      unfold clashTestString
      rw [if_pos ⟨hne, htrim⟩]
    rw [hcts]
    have hud : (jsUpper item).data = '#' :: t.map Char.toUpper := by
      unfold jsUpper
      rw [hitem]
      rfl
    obtain ⟨d, u, hru⟩ : ∃ d u, r.data = d :: u := by
      cases hr2 : r.data with
      | nil => exact absurd hr2 (string_data_ne_nil hrne)
      | cons d u => exact ⟨d, u, rfl⟩
    have hdne : d ≠ '#' := by
      intro he
      subst he
      exact absurd ((startsWith_hash_iff r).mpr ⟨u, hru⟩)
        (by rw [h2 r hr]; exact Bool.false_ne_true)
    exact jsStartsWith_head_ne hud hru hdne
  · have hcts : clashTestString item = "" := by
      unfold clashTestString
      rw [if_neg]
      intro hcon
      exact hcon.2 hb
    rw [hcts]
    exact jsStartsWith_empty r hrne

/-- The source filter-then-map pipeline equals the spec-side single
`filterMap` pass. -/
theorem clashFilterLines_eq (rules : List String) (lines : List String) :
    clashFilterLines rules lines = lines.filterMap (specClashEmit rules) := by
  induction lines with
  | nil => rfl
  | cons item rest ih =>
    simp only [clashFilterLines] at ih ⊢
    rw [List.filter_cons, List.filterMap_cons]
    cases hk : clashLineKeep rules item with
    | false =>
      have hd : specClashDrop rules item = true := by
        have he := clashLineKeep_eq rules item
        rw [hk] at he
        cases hdrop : specClashDrop rules item
        · rw [hdrop] at he; cases he
        · rfl
      have hemit : specClashEmit rules item = none := by
        unfold specClashEmit
        rw [if_pos hd]
      simp [hk, hemit, ih]
    | true =>
      have hd : specClashDrop rules item = false := by
        have he := clashLineKeep_eq rules item
        rw [hk] at he
        cases hdrop : specClashDrop rules item
        · rfl
        · rw [hdrop] at he; cases he
      have hnd : ¬(specClashDrop rules item = true) := by
        rw [hd]
        exact Bool.false_ne_true
      by_cases hg : jsStartsWith item "#" = true ∨ jsTrim item = ""
      · have hemit : specClashEmit rules item = some item := by
          unfold specClashEmit
          rw [if_neg hnd, if_pos hg]
        have hm : clashLineMap item = item := by
          unfold clashLineMap
          rw [if_pos hg]
        simp [hk, hemit, hm, ih]
      · have hemit : specClashEmit rules item
            = some (specClashTransform item) := by
          unfold specClashEmit
          rw [if_neg hnd, if_neg hg]
        have hm : clashLineMap item = specClashTransform item := by
          unfold clashLineMap
          rw [if_neg hg]
          rfl
        simp [hk, hemit, hm, ih]

/-- C9: the Clash rule filter drops unsupported-prefix lines and maps
every survivor exactly as the spec-side single pass describes (blank and
`#` lines unchanged, everything else `- `-prefixed with `,no-resolve`
and `//`-comments stripped); in particular every blank or `#` line
survives unchanged in the output. -/
theorem c9_clash_rule_filter (rules lines : List String)
    (h1 : ∀ r ∈ rules, r ≠ "")
    (h2 : ∀ r ∈ rules, jsStartsWith r "#" = false) :
    clashFilterLines rules lines = lines.filterMap (specClashEmit rules) ∧
    ∀ item ∈ lines, (jsStartsWith item "#" = true ∨ jsTrim item = "") →
      item ∈ clashFilterLines rules lines ∧ clashLineMap item = item := by
  refine ⟨clashFilterLines_eq rules lines, ?_⟩
  intro item hitem hg
  have hk := clashLineKeep_passthrough rules h1 h2 item hg
  have hm : clashLineMap item = item := by
    unfold clashLineMap
    rw [if_pos hg]
  refine ⟨?_, hm⟩
  unfold clashFilterLines
  exact List.mem_map.mpr ⟨item, List.mem_filter.mpr ⟨hitem, hk⟩, hm⟩

theorem c9_witness :
    (∀ r ∈ ["URL-REGEX"], r ≠ "") ∧
    (∀ r ∈ ["URL-REGEX"], jsStartsWith r "#" = false) ∧
    (clashFilterLines ["URL-REGEX"]
        ["# c", "DOMAIN,example.com,Proxy,no-resolve // x", "",
         "URL-REGEX,a"]
      = ["# c", "DOMAIN,example.com,Proxy,no-resolve // x", "",
         "URL-REGEX,a"].filterMap (specClashEmit ["URL-REGEX"]) ∧
     ∀ item ∈ ["# c", "DOMAIN,example.com,Proxy,no-resolve // x", "",
         "URL-REGEX,a"],
       (jsStartsWith item "#" = true ∨ jsTrim item = "") →
       item ∈ clashFilterLines ["URL-REGEX"]
         ["# c", "DOMAIN,example.com,Proxy,no-resolve // x", "",
          "URL-REGEX,a"] ∧ clashLineMap item = item) :=
  ⟨by decide, by decide,
   c9_clash_rule_filter ["URL-REGEX"]
     ["# c", "DOMAIN,example.com,Proxy,no-resolve // x", "", "URL-REGEX,a"]
     (by decide) (by decide)⟩

end Surgio
